import Mathlib

/-!
# EGL entry points of libGLESv2 (ANGLE): current-binding state machine

A shallow embedding of `src/libGLESv2/entry_points_egl.cpp`.

* Opaque handles (`EGLDisplay`, `EGLConfig`, `EGLContext`, `EGLSurface`, object pointers) are
  natural numbers; `0` is the null pointer (`EGL_NO_DISPLAY`, `EGL_NO_CONTEXT`,
  `EGL_NO_SURFACE`, `NULL`).
* The thread-global record of `libGLESv2/global_state.h` (error, API, display, draw surface,
  read surface, context) and the objects reachable through handles form one `State`; every
  entry point is a function from the state before the call to its return value and the state
  after the call.
* Calls into the backend objects (`Display`, `gl::Context`, `Surface`, `rx::Renderer`), whose
  implementation is outside this file, are recorded in `State.trace`.
-/

namespace egl

/-! ## Primitive types and constants (`EGL/egl.h`, `EGL/eglext.h`) -/

abbrev EGLint := Int
abbrev EGLBoolean := Nat
abbrev EGLenum := Nat
abbrev Handle := Nat

def EGL_FALSE : EGLBoolean := 0
def EGL_TRUE : EGLBoolean := 1

def EGL_NO_DISPLAY : Handle := 0
def EGL_NO_CONTEXT : Handle := 0
def EGL_NO_SURFACE : Handle := 0

def EGL_SUCCESS : EGLint := 0x3000
def EGL_NOT_INITIALIZED : EGLint := 0x3001
def EGL_BAD_ACCESS : EGLint := 0x3002
def EGL_BAD_ALLOC : EGLint := 0x3003
def EGL_BAD_ATTRIBUTE : EGLint := 0x3004
def EGL_BAD_CONFIG : EGLint := 0x3005
def EGL_BAD_CONTEXT : EGLint := 0x3006
def EGL_BAD_CURRENT_SURFACE : EGLint := 0x3007
def EGL_BAD_DISPLAY : EGLint := 0x3008
def EGL_BAD_MATCH : EGLint := 0x3009
def EGL_BAD_NATIVE_PIXMAP : EGLint := 0x300A
def EGL_BAD_NATIVE_WINDOW : EGLint := 0x300B
def EGL_BAD_PARAMETER : EGLint := 0x300C
def EGL_BAD_SURFACE : EGLint := 0x300D
def EGL_CONTEXT_LOST : EGLint := 0x300E

def EGL_NONE : EGLint := 0x3038
def EGL_DRAW : EGLint := 0x3059
def EGL_READ : EGLint := 0x305A
def EGL_NO_TEXTURE : EGLint := 0x305C
def EGL_BACK_BUFFER : EGLint := 0x3084

def EGL_VENDOR : EGLint := 0x3053
def EGL_VERSION : EGLint := 0x3054
def EGL_EXTENSIONS : EGLint := 0x3055
def EGL_CLIENT_APIS : EGLint := 0x308D
def EGL_TEXTURE_RGB : EGLint := 0x305D

def EGL_CONFIG_ID : EGLint := 0x3028
def EGL_HEIGHT : EGLint := 0x3056
def EGL_WIDTH : EGLint := 0x3057
def EGL_LARGEST_PBUFFER : EGLint := 0x3058
def EGL_TEXTURE_FORMAT : EGLint := 0x3080
def EGL_TEXTURE_TARGET : EGLint := 0x3081
def EGL_MIPMAP_TEXTURE : EGLint := 0x3082
def EGL_MIPMAP_LEVEL : EGLint := 0x3083
def EGL_RENDER_BUFFER : EGLint := 0x3086
def EGL_VG_COLORSPACE : EGLint := 0x3087
def EGL_VG_ALPHA_FORMAT : EGLint := 0x3088
def EGL_HORIZONTAL_RESOLUTION : EGLint := 0x3090
def EGL_VERTICAL_RESOLUTION : EGLint := 0x3091
def EGL_PIXEL_ASPECT_RATIO : EGLint := 0x3092
def EGL_SWAP_BEHAVIOR : EGLint := 0x3093
def EGL_MULTISAMPLE_RESOLVE : EGLint := 0x3099
def EGL_POST_SUB_BUFFER_SUPPORTED_NV : EGLint := 0x30BE
def EGL_FIXED_SIZE_ANGLE : EGLint := 0x3201

def EGL_OPENGL_ES_API : EGLenum := 0x30A0
def EGL_OPENVG_API : EGLenum := 0x30A1
def EGL_OPENGL_API : EGLenum := 0x30A2

def EGL_D3D_TEXTURE_2D_SHARE_HANDLE_ANGLE : EGLenum := 0x3200

def EGL_CONTEXT_CLIENT_VERSION : EGLint := 0x3098
def EGL_CONTEXT_MINOR_VERSION : EGLint := 0x30FB
def EGL_CONTEXT_FLAGS_KHR : EGLint := 0x30FC
def EGL_CONTEXT_OPENGL_PROFILE_MASK_KHR : EGLint := 0x30FD
def EGL_CONTEXT_OPENGL_ROBUST_ACCESS_EXT : EGLint := 0x30BF
def EGL_CONTEXT_OPENGL_RESET_NOTIFICATION_STRATEGY_KHR : EGLint := 0x31BD
def EGL_CONTEXT_OPENGL_RESET_NOTIFICATION_STRATEGY_EXT : EGLint := 0x3138
def EGL_NO_RESET_NOTIFICATION_EXT : EGLint := 0x31BE
def EGL_LOSE_CONTEXT_ON_RESET_EXT : EGLint := 0x31BF
def EGL_CONTEXT_OPENGL_DEBUG_BIT_KHR : EGLint := 0x00000001
def EGL_CONTEXT_OPENGL_ROBUST_ACCESS_BIT_KHR : EGLint := 0x00000004

/-! ## 32-bit integer operations

`EGLint` is a 32-bit signed integer; the bitwise operators of C++ act on its two's
complement bit pattern. -/

/-- The bit pattern of a 32-bit integer, as a natural number below `2^32`. -/
def toU32 (x : EGLint) : Nat := (x % 4294967296).toNat

/-- The 32-bit signed integer with the given bit pattern. -/
def ofU32 (n : Nat) : EGLint :=
  if n < 2147483648 then (n : Int) else (n : Int) - 4294967296

/-- The operator `a & b` on `EGLint`. -/
def and32 (a b : EGLint) : EGLint := ofU32 (toU32 a &&& toU32 b)

/-- The operator `a | b` on `EGLint`. -/
def or32 (a b : EGLint) : EGLint := ofU32 (toU32 a ||| toU32 b)

/-- The operator `~a` on `EGLint`. -/
def not32 (a : EGLint) : EGLint := ofU32 (4294967295 - toU32 a)

/-! ## Data model: the backend objects as the entry points see them -/

/-- The renderer `rx::Renderer` of a display: the answers of its two device-loss queries,
`testDeviceLost()` (the device is found lost now) and `isDeviceLost()` (the device is
already marked lost). -/
structure Renderer where
  testDeviceLost : Bool
  deviceLost : Bool
deriving DecidableEq, Repr, Inhabited

/-- The object `egl::Display` behind a non-null display handle: `isInitialized()`,
`getRenderer()`, and the three sets behind `isValidConfig`, `isValidContext` and
`isValidSurface`. -/
structure Display where
  initialized : Bool
  renderer : Handle
  configs : List Handle
  contexts : List Handle
  surfaces : List Handle
deriving DecidableEq, Repr, Inhabited

/-- The object `gl::Context` behind a context handle: `getClientVersion()`,
`isResetNotificationEnabled()`, `getRenderer()` and `getTexture2D()`. -/
structure Context where
  clientVersion : EGLint
  resetNotification : Bool
  renderer : Handle
  texture2D : Handle
deriving DecidableEq, Repr, Inhabited

/-- The object `gl::Texture2D`: `isImmutable()`. -/
structure Texture2D where
  immutable : Bool
deriving DecidableEq, Repr, Inhabited

/-- The object `egl::Surface` behind a surface handle: the values of its getters. -/
structure Surface where
  configID : EGLint
  width : EGLint
  height : EGLint
  pixelAspectRatio : EGLint
  renderBuffer : EGLint
  swapBehavior : EGLint
  textureFormat : EGLint
  textureTarget : EGLint
  postSubBufferSupported : EGLint
  fixedSize : EGLint
  windowHandle : Handle
  boundTexture : Handle
  swapInterval : EGLint
deriving DecidableEq, Repr, Inhabited

/-- A call from an entry point into a backend object. -/
inductive Event where
  | unimplemented (line : Nat)
  | notifyDeviceLost (dpy : Handle)
  | contextMakeCurrent (ctx : Handle) (surface : Handle)
  | displayTerminate (dpy : Handle)
  | destroySurface (dpy : Handle) (surface : Handle)
  | destroyContext (dpy : Handle) (ctx : Handle)
  | createWindowSurface (dpy : Handle) (win : Handle) (config : Handle)
      (attribs : Option (List EGLint))
  | createOffscreenSurface (dpy : Handle) (config : Handle) (shareHandle : Handle)
      (attribs : Option (List EGLint))
  | createContext (dpy : Handle) (config : Handle) (clientVersion : EGLint) (share : Handle)
      (notifyResets : Bool) (robustAccess : Bool)
  | bindTexImage (surface : Handle) (texture : Handle) (buffer : EGLint)
  | releaseTexImage (surface : Handle) (buffer : EGLint)
  | setSwapInterval (surface : Handle) (interval : EGLint)
deriving DecidableEq, Repr

/-- The whole state the entry points read and write: the thread-global record
(`error`, `API`, `display`, `drawSurface`, `readSurface`, `context`), the objects behind the
handles, the set of native windows accepted by `isValidNativeWindow`, and the calls made
into the backend so far (most recent first). -/
structure State where
  error : EGLint
  API : EGLenum
  display : Handle
  drawSurface : Handle
  readSurface : Handle
  context : Handle
  displays : Handle → Display
  renderers : Handle → Renderer
  contexts : Handle → Context
  surfaces : Handle → Surface
  textures : Handle → Texture2D
  nativeWindows : List Handle
  trace : List Event

/-! ## Global state accessors (`libGLESv2/global_state.h`) -/

/-- Modelled from the spec: `SetGlobalError` of `global_state.h`, which is not part of the
sources; it stores the code unconditionally (last write wins). -/
def SetGlobalError (s : State) (code : EGLint) : State := { s with error := code }

/-- Modelled from the spec: `GetGlobalError` of `global_state.h`; the single pending error
code. -/
def GetGlobalError (s : State) : EGLint := s.error

/-- Modelled from the spec: `SetGlobalDisplay` of `global_state.h`; writes the currently
bound display. -/
def SetGlobalDisplay (s : State) (dpy : Handle) : State := { s with display := dpy }

/-- Modelled from the spec: `GetGlobalDisplay` of `global_state.h`. -/
def GetGlobalDisplay (s : State) : Handle := s.display

/-- Modelled from the spec: `SetGlobalDrawSurface` of `global_state.h`. -/
def SetGlobalDrawSurface (s : State) (surface : Handle) : State :=
  { s with drawSurface := surface }

/-- Modelled from the spec: `GetGlobalDrawSurface` of `global_state.h`. -/
def GetGlobalDrawSurface (s : State) : Handle := s.drawSurface

/-- Modelled from the spec: `SetGlobalReadSurface` of `global_state.h`. -/
def SetGlobalReadSurface (s : State) (surface : Handle) : State :=
  { s with readSurface := surface }

/-- Modelled from the spec: `GetGlobalReadSurface` of `global_state.h`. -/
def GetGlobalReadSurface (s : State) : Handle := s.readSurface

/-- Modelled from the spec: `SetGlobalContext` of `global_state.h`. -/
def SetGlobalContext (s : State) (ctx : Handle) : State := { s with context := ctx }

/-- Modelled from the spec: `GetGlobalContext` of `global_state.h`. -/
def GetGlobalContext (s : State) : Handle := s.context

/-! ## Backend operations (`libANGLE/Display.h`, `libANGLE/Context.h`, `common/debug.h`) -/

/-- Record a call into a backend object. -/
def logEvent (s : State) (e : Event) : State := { s with trace := e :: s.trace }

/-- Modelled from the spec: the macro `UNIMPLEMENTED()` of `common/debug.h`, which is not
part of the sources; it reports the place and execution continues. -/
def UNIMPLEMENTED (s : State) (line : Nat) : State := logEvent s (Event.unimplemented line)

/-- The query `display->isInitialized()`. -/
def isInitialized (s : State) (dpy : Handle) : Bool := (s.displays dpy).initialized

/-- The query `display->isValidConfig(config)`: membership in the enumerated configs. -/
def isValidConfig (s : State) (dpy : Handle) (config : Handle) : Bool :=
  decide (config ∈ (s.displays dpy).configs)

/-- The query `display->isValidContext(context)`: membership in the live contexts. -/
def isValidContext (s : State) (dpy : Handle) (ctx : Handle) : Bool :=
  decide (ctx ∈ (s.displays dpy).contexts)

/-- The query `display->isValidSurface(surface)`: membership in the live surfaces. -/
def isValidSurface (s : State) (dpy : Handle) (surface : Handle) : Bool :=
  decide (surface ∈ (s.displays dpy).surfaces)

/-- The query `display->getRenderer()`. -/
def getRenderer (s : State) (dpy : Handle) : Handle := (s.displays dpy).renderer

/-- Replace the display object behind `dpy`. -/
def setDisplay (s : State) (dpy : Handle) (d : Display) : State :=
  { s with displays := fun h => if h = dpy then d else s.displays h }

/-- Modelled from the spec: `Display::notifyDeviceLost` of `libANGLE/Display.cpp`, which is
not part of the sources; the Display is notified of the device loss, the thread-global
record is not touched. -/
def notifyDeviceLost (s : State) (dpy : Handle) : State :=
  logEvent s (Event.notifyDeviceLost dpy)

/-- Modelled from the spec: `gl::Context::makeCurrent` of `libANGLE/Context.cpp`, the hook
that informs the backend of the new binding. -/
def contextMakeCurrent (s : State) (ctx : Handle) (surface : Handle) : State :=
  logEvent s (Event.contextMakeCurrent ctx surface)

/-- Modelled from the spec: `Display::destroyContext` of `libANGLE/Display.cpp`; the context
leaves the set of live contexts owned by the display. -/
def displayDestroyContext (s : State) (dpy : Handle) (ctx : Handle) : State :=
  logEvent
    (setDisplay s dpy
      { s.displays dpy with contexts := (s.displays dpy).contexts.filter (fun c => c != ctx) })
    (Event.destroyContext dpy ctx)

/-- Modelled from the spec: `Display::destroySurface` of `libANGLE/Display.cpp`; the surface
leaves the set of live surfaces owned by the display. -/
def displayDestroySurface (s : State) (dpy : Handle) (surface : Handle) : State :=
  logEvent
    (setDisplay s dpy
      { s.displays dpy with
        surfaces := (s.displays dpy).surfaces.filter (fun x => x != surface) })
    (Event.destroySurface dpy surface)

/-- Modelled from the spec: `Display::terminate` of `libANGLE/Display.cpp`; the display is no
longer initialized and the contexts and surfaces it owns are destroyed. -/
def displayTerminate (s : State) (dpy : Handle) : State :=
  logEvent
    (setDisplay s dpy { s.displays dpy with initialized := false, contexts := [], surfaces := [] })
    (Event.displayTerminate dpy)

/-- The outcome of a backend creation call (`Display::createWindowSurface`,
`Display::createOffscreenSurface`, `Display::createContext`): the code of the `Error` it
returns and the handle it stores through its out pointer. -/
structure BackendResult where
  error : EGLint
  handle : Handle
deriving DecidableEq, Repr, Inhabited

/-- Modelled from the spec: `Error::isError` of `libANGLE/Error.h`; every code other than
success is an error. -/
def isError (code : EGLint) : Bool := code != EGL_SUCCESS

/-- The query `display->isValidNativeWindow(win)`. -/
def isValidNativeWindow (s : State) (win : Handle) : Bool := decide (win ∈ s.nativeWindows)

/-- Modelled from the spec: `Display::createWindowSurface` of `libANGLE/Display.cpp` with
outcome `r`; a surface that was created joins the live surfaces owned by the display. -/
def displayCreateWindowSurface (s : State) (dpy : Handle) (win : Handle) (config : Handle)
    (attrib_list : Option (List EGLint)) (r : BackendResult) : State :=
  logEvent
    (if isError r.error then s
     else setDisplay s dpy
       { s.displays dpy with surfaces := r.handle :: (s.displays dpy).surfaces })
    (Event.createWindowSurface dpy win config attrib_list)

/-- Modelled from the spec: `Display::createOffscreenSurface` of `libANGLE/Display.cpp` with
outcome `r`; a surface that was created joins the live surfaces owned by the display. -/
def displayCreateOffscreenSurface (s : State) (dpy : Handle) (config : Handle)
    (shareHandle : Handle) (attrib_list : Option (List EGLint)) (r : BackendResult) : State :=
  logEvent
    (if isError r.error then s
     else setDisplay s dpy
       { s.displays dpy with surfaces := r.handle :: (s.displays dpy).surfaces })
    (Event.createOffscreenSurface dpy config shareHandle attrib_list)

/-- Modelled from the spec: `Display::createContext` of `libANGLE/Display.cpp` with outcome
`r`; a context that was created joins the live contexts owned by the display. -/
def displayCreateContext (s : State) (dpy : Handle) (config : Handle) (clientVersion : EGLint)
    (share : Handle) (notifyResets : Bool) (robustAccess : Bool) (r : BackendResult) : State :=
  logEvent
    (if isError r.error then s
     else setDisplay s dpy
       { s.displays dpy with contexts := r.handle :: (s.displays dpy).contexts })
    (Event.createContext dpy config clientVersion share notifyResets robustAccess)

/-- Replace the surface object behind `surface`. -/
def setSurface (s : State) (surface : Handle) (x : Surface) : State :=
  { s with surfaces := fun h => if h = surface then x else s.surfaces h }

/-- Modelled from the spec: `Surface::bindTexImage` of `libANGLE/Surface.cpp`, which is not
part of the sources; the texture becomes the bound texture of the surface. -/
def surfaceBindTexImage (s : State) (surface : Handle) (texture : Handle) (buffer : EGLint) :
    State :=
  logEvent
    (setSurface s surface { s.surfaces surface with boundTexture := texture })
    (Event.bindTexImage surface texture buffer)

/-- Modelled from the spec: `Surface::releaseTexImage` of `libANGLE/Surface.cpp`, which is not
part of the sources; the bound texture is detached from the surface. -/
def surfaceReleaseTexImage (s : State) (surface : Handle) (buffer : EGLint) : State :=
  logEvent
    (setSurface s surface { s.surfaces surface with boundTexture := 0 })
    (Event.releaseTexImage surface buffer)

/-- Modelled from the spec: the strings handed out by the display, which are not part of the
sources: `Display::getExtensionString(display)` (a static function, defined for the null
display too, where it is the static global extension list), `display->getVendorString()`,
and the macro `ANGLE_VERSION_STRING` of `common/version.h`. -/
structure DisplayStrings where
  extensionString : Handle → String
  vendorString : Handle → String
  angleVersion : String

/-! ## EGL object validation (lines 28-92) -/

/-- The function `ValidateDisplay` (lines 29-44). -/
def ValidateDisplay (s : State) (display : Handle) : Bool × State :=
  if display == EGL_NO_DISPLAY then
    (false, SetGlobalError s EGL_BAD_DISPLAY)
  else if !isInitialized s display then
    (false, SetGlobalError s EGL_NOT_INITIALIZED)
  else
    (true, s)

/-- The function `ValidateConfig` (lines 46-60). -/
def ValidateConfig (s : State) (display : Handle) (config : Handle) : Bool × State :=
  if !(ValidateDisplay s display).1 then
    (false, (ValidateDisplay s display).2)
  else if !isValidConfig (ValidateDisplay s display).2 display config then
    (false, SetGlobalError (ValidateDisplay s display).2 EGL_BAD_CONFIG)
  else
    (true, (ValidateDisplay s display).2)

/-- The function `ValidateContext` (lines 62-76). -/
def ValidateContext (s : State) (display : Handle) (context : Handle) : Bool × State :=
  if !(ValidateDisplay s display).1 then
    (false, (ValidateDisplay s display).2)
  else if !isValidContext (ValidateDisplay s display).2 display context then
    (false, SetGlobalError (ValidateDisplay s display).2 EGL_BAD_CONTEXT)
  else
    (true, (ValidateDisplay s display).2)

/-- The function `ValidateSurface` (lines 78-92). -/
def ValidateSurface (s : State) (display : Handle) (surface : Handle) : Bool × State :=
  if !(ValidateDisplay s display).1 then
    (false, (ValidateDisplay s display).2)
  else if !isValidSurface (ValidateDisplay s display).2 display surface then
    (false, SetGlobalError (ValidateDisplay s display).2 EGL_BAD_SURFACE)
  else
    (true, (ValidateDisplay s display).2)

/-! ## Entry points, EGL 1.0 -/

/-- The entry point `GetError` (lines 95-102). -/
def GetError (s : State) : EGLint × State :=
  (GetGlobalError s, SetGlobalError s EGL_SUCCESS)

/-- The entry point `Terminate` (lines 138-161). -/
def Terminate (s : State) (dpy : Handle) : EGLBoolean × State :=
  if dpy == EGL_NO_DISPLAY then
    (EGL_FALSE, SetGlobalError s EGL_BAD_DISPLAY)
  else
    let context := GetGlobalContext s
    let s1 :=
      if isValidContext s dpy context then
        SetGlobalDisplay (SetGlobalContext s 0) 0
      else s
    let s2 := displayTerminate s1 dpy
    (EGL_TRUE, SetGlobalError s2 EGL_SUCCESS)

/-- The entry point `QueryString` (lines 163-195); the result `none` is the null pointer and
`some str` is a pointer to the string `str`. A validation that is skipped or passes has not
written the state (`ValidateDisplay_true`), so execution continues in the state `s`. -/
def QueryString (strs : DisplayStrings) (s : State) (dpy : Handle) (name : EGLint) :
    Option String × State :=
  let display := dpy
  if !(display == EGL_NO_DISPLAY && name == EGL_EXTENSIONS)
      && !(ValidateDisplay s display).1 then
    (none, (ValidateDisplay s display).2)
  else if name == EGL_CLIENT_APIS then
    (some "OpenGL_ES", SetGlobalError s EGL_SUCCESS)
  else if name == EGL_EXTENSIONS then
    (some (strs.extensionString display), SetGlobalError s EGL_SUCCESS)
  else if name == EGL_VENDOR then
    (some (strs.vendorString display), SetGlobalError s EGL_SUCCESS)
  else if name == EGL_VERSION then
    (some ("1.4 (ANGLE " ++ strs.angleVersion ++ ")"), SetGlobalError s EGL_SUCCESS)
  else
    (none, SetGlobalError s EGL_BAD_PARAMETER)

/-- The entry point `CreateWindowSurface` (lines 282-309); `backend` is the outcome of
`display->createWindowSurface`. -/
def CreateWindowSurface (s : State) (dpy : Handle) (config : Handle) (win : Handle)
    (attrib_list : Option (List EGLint)) (backend : BackendResult) : Handle × State :=
  if !(ValidateConfig s dpy config).1 then
    (EGL_NO_SURFACE, (ValidateConfig s dpy config).2)
  else if !isValidNativeWindow (ValidateConfig s dpy config).2 win then
    (EGL_NO_SURFACE, SetGlobalError (ValidateConfig s dpy config).2 EGL_BAD_NATIVE_WINDOW)
  else
    let s1 := displayCreateWindowSurface (ValidateConfig s dpy config).2 dpy win config
      attrib_list backend
    if isError backend.error then
      (EGL_NO_SURFACE, SetGlobalError s1 backend.error)
    else
      (backend.handle, s1)

/-- The entry point `CreatePbufferSurface` (lines 311-332); `backend` is the outcome of
`display->createOffscreenSurface`. -/
def CreatePbufferSurface (s : State) (dpy : Handle) (config : Handle)
    (attrib_list : Option (List EGLint)) (backend : BackendResult) : Handle × State :=
  if !(ValidateConfig s dpy config).1 then
    (EGL_NO_SURFACE, (ValidateConfig s dpy config).2)
  else
    let s1 := displayCreateOffscreenSurface (ValidateConfig s dpy config).2 dpy config 0
      attrib_list backend
    if isError backend.error then
      (EGL_NO_SURFACE, SetGlobalError s1 backend.error)
    else
      (backend.handle, s1)

/-- The entry point `DestroySurface` (lines 352-374). -/
def DestroySurface (s : State) (dpy : Handle) (surface : Handle) : EGLBoolean × State :=
  if !(ValidateSurface s dpy surface).1 then
    (EGL_FALSE, (ValidateSurface s dpy surface).2)
  else if surface == EGL_NO_SURFACE then
    (EGL_FALSE, SetGlobalError (ValidateSurface s dpy surface).2 EGL_BAD_SURFACE)
  else
    let s1 := displayDestroySurface (ValidateSurface s dpy surface).2 dpy surface
    (EGL_TRUE, SetGlobalError s1 EGL_SUCCESS)

/-- The end of `QuerySurface` after the `switch` (lines 456-457). The cell behind the pointer
`value` is `none` for the null pointer and `some v` for a cell that holds `v`. -/
def QuerySurface.finish (value : Option EGLint) (s : State) :
    Option (EGLBoolean × Option EGLint × State) :=
  some (EGL_TRUE, value, SetGlobalError s EGL_SUCCESS)

/-- A `case` of `QuerySurface` that stores `x` through the pointer `value` and leaves the
`switch`; storing through the null pointer has no defined behaviour. -/
def QuerySurface.store (value : Option EGLint) (x : EGLint) (s : State) :
    Option (EGLBoolean × Option EGLint × State) :=
  match value with
  | none => none
  | some _ => QuerySurface.finish (some x) s

/-- The entry point `QuerySurface` (lines 376-458). The argument `value` is the cell behind
the pointer `value` before the call (`none` for the null pointer) and `attrib` is the
argument `attribute`; the result holds the
return value, the cell after the call and the state after the call, and is `none` when the
call stores through the null pointer. -/
def QuerySurface (s : State) (dpy : Handle) (surface : Handle) (attrib : EGLint)
    (value : Option EGLint) : Option (EGLBoolean × Option EGLint × State) :=
  if !(ValidateSurface s dpy surface).1 then
    some (EGL_FALSE, value, (ValidateSurface s dpy surface).2)
  else
    let s0 := (ValidateSurface s dpy surface).2
    if surface == EGL_NO_SURFACE then
      some (EGL_FALSE, value, SetGlobalError s0 EGL_BAD_SURFACE)
    else
      let eglSurface := s0.surfaces surface
      if attrib == EGL_VG_ALPHA_FORMAT then
        QuerySurface.finish value (UNIMPLEMENTED s0 398)
      else if attrib == EGL_VG_COLORSPACE then
        QuerySurface.finish value (UNIMPLEMENTED s0 401)
      else if attrib == EGL_CONFIG_ID then
        QuerySurface.store value eglSurface.configID s0
      else if attrib == EGL_HEIGHT then
        QuerySurface.store value eglSurface.height s0
      else if attrib == EGL_HORIZONTAL_RESOLUTION then
        QuerySurface.finish value (UNIMPLEMENTED s0 410)
      else if attrib == EGL_LARGEST_PBUFFER then
        QuerySurface.finish value (UNIMPLEMENTED s0 413)
      else if attrib == EGL_MIPMAP_TEXTURE then
        QuerySurface.finish value (UNIMPLEMENTED s0 416)
      else if attrib == EGL_MIPMAP_LEVEL then
        QuerySurface.finish value (UNIMPLEMENTED s0 419)
      else if attrib == EGL_MULTISAMPLE_RESOLVE then
        QuerySurface.finish value (UNIMPLEMENTED s0 422)
      else if attrib == EGL_PIXEL_ASPECT_RATIO then
        QuerySurface.store value eglSurface.pixelAspectRatio s0
      else if attrib == EGL_RENDER_BUFFER then
        QuerySurface.store value eglSurface.renderBuffer s0
      else if attrib == EGL_SWAP_BEHAVIOR then
        QuerySurface.store value eglSurface.swapBehavior s0
      else if attrib == EGL_TEXTURE_FORMAT then
        QuerySurface.store value eglSurface.textureFormat s0
      else if attrib == EGL_TEXTURE_TARGET then
        QuerySurface.store value eglSurface.textureTarget s0
      else if attrib == EGL_VERTICAL_RESOLUTION then
        QuerySurface.finish value (UNIMPLEMENTED s0 440)
      else if attrib == EGL_WIDTH then
        QuerySurface.store value eglSurface.width s0
      else if attrib == EGL_POST_SUB_BUFFER_SUPPORTED_NV then
        QuerySurface.store value eglSurface.postSubBufferSupported s0
      else if attrib == EGL_FIXED_SIZE_ANGLE then
        QuerySurface.store value eglSurface.fixedSize s0
      else
        some (EGL_FALSE, value, SetGlobalError s0 EGL_BAD_ATTRIBUTE)

/-- The locals of `CreateContext` written by the attribute loop (lines 466-470). -/
structure ContextAttribs where
  clientMajorVersion : EGLint
  clientMinorVersion : EGLint
  contextFlags : EGLint
  resetNotification : Bool
  robustAccess : Bool
deriving DecidableEq, Repr, Inhabited

/-- The ways the attribute loop of `CreateContext` ends: it reaches the terminator `EGL_NONE`
with the locals `a`; or its body returns `EGL_NO_CONTEXT` after `SetGlobalError(code)`; or it
reads past the end of the array. -/
inductive AttribLoopResult where
  | done (a : ContextAttribs)
  | failed (code : EGLint)
  | outOfBounds
deriving DecidableEq, Repr

/-- The body of the attribute loop of `CreateContext` (the `switch`, lines 476-522) for the
key `attribute[0] = key` and the value `attribute[1] = value`: the updated locals, or the
error code with which the body returns. -/
def CreateContext.attribCase (key : EGLint) (value : EGLint) (a : ContextAttribs) :
    Except EGLint ContextAttribs :=
  if key == EGL_CONTEXT_CLIENT_VERSION then
    .ok { a with clientMajorVersion := value }
  else if key == EGL_CONTEXT_MINOR_VERSION then
    .ok { a with clientMinorVersion := value }
  else if key == EGL_CONTEXT_FLAGS_KHR then
    .ok { a with contextFlags := value }
  else if key == EGL_CONTEXT_OPENGL_PROFILE_MASK_KHR then
    .error EGL_BAD_ATTRIBUTE
  else if key == EGL_CONTEXT_OPENGL_ROBUST_ACCESS_EXT then
    if value != (EGL_TRUE : Int) && value != (EGL_FALSE : Int) then
      .error EGL_BAD_ATTRIBUTE
    else
      .ok { a with robustAccess := value == (EGL_TRUE : Int) }
  else if key == EGL_CONTEXT_OPENGL_RESET_NOTIFICATION_STRATEGY_KHR
      || key == EGL_CONTEXT_OPENGL_RESET_NOTIFICATION_STRATEGY_EXT then
    if value == EGL_LOSE_CONTEXT_ON_RESET_EXT then
      .ok { a with resetNotification := true }
    else if value != EGL_NO_RESET_NOTIFICATION_EXT then
      .error EGL_BAD_ATTRIBUTE
    else
      .ok a
  else
    .error EGL_BAD_ATTRIBUTE

/-- The keys whose `case` reads `attribute[1]`. -/
def CreateContext.readsValue (key : EGLint) : Bool :=
  key == EGL_CONTEXT_CLIENT_VERSION || key == EGL_CONTEXT_MINOR_VERSION
    || key == EGL_CONTEXT_FLAGS_KHR || key == EGL_CONTEXT_OPENGL_ROBUST_ACCESS_EXT
    || key == EGL_CONTEXT_OPENGL_RESET_NOTIFICATION_STRATEGY_KHR
    || key == EGL_CONTEXT_OPENGL_RESET_NOTIFICATION_STRATEGY_EXT

/-- The attribute loop of `CreateContext` (lines 474-523) over the array that starts at
`attribute`, entered with the locals `a`. -/
def CreateContext.attribLoop : List EGLint → ContextAttribs → AttribLoopResult
  | [], _ => .outOfBounds
  | [key], a =>
    if key == EGL_NONE then .done a
    else if CreateContext.readsValue key then .outOfBounds
    else .failed EGL_BAD_ATTRIBUTE
  | key :: value :: rest, a =>
    if key == EGL_NONE then .done a
    else
      match CreateContext.attribCase key value a with
      | .error code => .failed code
      | .ok a1 => CreateContext.attribLoop rest a1

/-- The end of `CreateContext` (lines 579-593): config validation and the backend call, with
`backend` the outcome of `display->createContext`. -/
def CreateContext.create (s : State) (dpy : Handle) (config : Handle) (share_context : Handle)
    (a : ContextAttribs) (robustAccess : Bool) (backend : BackendResult) : Handle × State :=
  if !(ValidateConfig s dpy config).1 then
    (EGL_NO_CONTEXT, (ValidateConfig s dpy config).2)
  else
    let s1 := displayCreateContext (ValidateConfig s dpy config).2 dpy config
      a.clientMajorVersion share_context a.resetNotification robustAccess backend
    if isError backend.error then
      (EGL_NO_CONTEXT, SetGlobalError s1 backend.error)
    else
      (backend.handle, s1)

/-- The entry point `CreateContext` (lines 460-594); `backend` is the outcome of
`display->createContext`. The result is `none` when the call has no defined behaviour: the
attribute loop reads past the end of the array, or `display->getRenderer()` (line 572) is
evaluated through the null display. -/
def CreateContext (s : State) (dpy : Handle) (config : Handle) (share_context : Handle)
    (attrib_list : Option (List EGLint)) (backend : BackendResult) :
    Option (Handle × State) :=
  let a0 : ContextAttribs :=
    { clientMajorVersion := 1, clientMinorVersion := 0, contextFlags := 0,
      resetNotification := false, robustAccess := false }
  let parsed : AttribLoopResult :=
    match attrib_list with
    | none => .done a0
    | some l => CreateContext.attribLoop l a0
  match parsed with
  | .outOfBounds => none
  | .failed code => some (EGL_NO_CONTEXT, SetGlobalError s code)
  | .done a =>
    if (a.clientMajorVersion != 2 && a.clientMajorVersion != 3)
        || a.clientMinorVersion != 0 then
      some (EGL_NO_CONTEXT, SetGlobalError s EGL_BAD_CONFIG)
    else
      let validContextFlags : EGLint :=
        or32 EGL_CONTEXT_OPENGL_DEBUG_BIT_KHR EGL_CONTEXT_OPENGL_ROBUST_ACCESS_BIT_KHR
      if and32 a.contextFlags (not32 validContextFlags) != 0 then
        some (EGL_NO_CONTEXT, SetGlobalError s EGL_BAD_ATTRIBUTE)
      else
        let robustAccess : Bool :=
          if and32 a.contextFlags EGL_CONTEXT_OPENGL_ROBUST_ACCESS_BIT_KHR > 0 then true
          else a.robustAccess
        if robustAccess then
          some (EGL_NO_CONTEXT, SetGlobalError s EGL_BAD_CONFIG)
        else
          let display := dpy
          if share_context != 0 then
            let sharedGLContext := s.contexts share_context
            if sharedGLContext.resetNotification != a.resetNotification then
              some (EGL_NO_CONTEXT, SetGlobalError s EGL_BAD_MATCH)
            else if sharedGLContext.clientVersion != a.clientMajorVersion then
              some (EGL_NO_CONTEXT, SetGlobalError s EGL_BAD_CONTEXT)
            else if display == 0 then
              none
            else if sharedGLContext.renderer != getRenderer s display then
              some (EGL_NO_CONTEXT, SetGlobalError s EGL_BAD_MATCH)
            else
              some (CreateContext.create s display config share_context a robustAccess backend)
          else
            some (CreateContext.create s display config share_context a robustAccess backend)

/-- The entry point `DestroyContext` (lines 596-624). -/
def DestroyContext (s : State) (dpy : Handle) (ctx : Handle) : EGLBoolean × State :=
  if !(ValidateContext s dpy ctx).1 then
    (EGL_FALSE, (ValidateContext s dpy ctx).2)
  else if ctx == EGL_NO_CONTEXT then
    (EGL_FALSE, SetGlobalError (ValidateContext s dpy ctx).2 EGL_BAD_CONTEXT)
  else
    let s0 := (ValidateContext s dpy ctx).2
    let s1 :=
      if ctx == GetGlobalContext s0 then
        SetGlobalContext (SetGlobalDisplay s0 0) 0
      else s0
    let s2 := displayDestroyContext s1 dpy ctx
    (EGL_TRUE, SetGlobalError s2 EGL_SUCCESS)

/-- The device-loss block of `MakeCurrent` (lines 647-661): `some r` when the block returns
`r`, `none` when execution falls through. -/
def MakeCurrent.deviceLossCheck (s : State) (dpy : Handle) : Option (EGLBoolean × State) :=
  if dpy != EGL_NO_DISPLAY && isInitialized s dpy then
    let renderer := getRenderer s dpy
    if (s.renderers renderer).testDeviceLost then
      some (EGL_FALSE, notifyDeviceLost s dpy)
    else if (s.renderers renderer).deviceLost then
      some (EGL_FALSE, SetGlobalError s EGL_CONTEXT_LOST)
    else
      none
  else
    none

/-- The entry point `MakeCurrent` (lines 626-689). A validator that returns `true` has not
written the state (`ValidateContext_true`, `ValidateSurface_true`), so after a passed check
execution continues in the state `s`. -/
def MakeCurrent (s : State) (dpy : Handle) (draw : Handle) (read : Handle) (ctx : Handle) :
    EGLBoolean × State :=
  let display := dpy
  let context := ctx
  let noContext : Bool := ctx == EGL_NO_CONTEXT
  let noSurface : Bool := draw == EGL_NO_SURFACE || read == EGL_NO_SURFACE
  if noContext != noSurface then
    (EGL_FALSE, SetGlobalError s EGL_BAD_MATCH)
  else if ctx != EGL_NO_CONTEXT && !(ValidateContext s display context).1 then
    (EGL_FALSE, (ValidateContext s display context).2)
  else
    match MakeCurrent.deviceLossCheck s dpy with
    | some r => r
    | none =>
      let drawSurface := draw
      let readSurface := read
      if draw != EGL_NO_SURFACE && !(ValidateSurface s display drawSurface).1 then
        (EGL_FALSE, (ValidateSurface s display drawSurface).2)
      else if read != EGL_NO_SURFACE && !(ValidateSurface s display readSurface).1 then
        (EGL_FALSE, (ValidateSurface s display readSurface).2)
      else
        let s1 := if draw != read then UNIMPLEMENTED s 674 else s
        let s2 := SetGlobalDisplay s1 display
        let s3 := SetGlobalDrawSurface s2 drawSurface
        let s4 := SetGlobalReadSurface s3 readSurface
        let s5 := SetGlobalContext s4 context
        let s6 :=
          if context != 0 && display != 0 && drawSurface != 0 then
            contextMakeCurrent s5 context drawSurface
          else s5
        (EGL_TRUE, SetGlobalError s6 EGL_SUCCESS)

/-- The entry point `GetCurrentSurface` (lines 691-710). -/
def GetCurrentSurface (s : State) (readdraw : EGLint) : Handle × State :=
  if readdraw == EGL_READ then
    (GetGlobalReadSurface (SetGlobalError s EGL_SUCCESS), SetGlobalError s EGL_SUCCESS)
  else if readdraw == EGL_DRAW then
    (GetGlobalDrawSurface (SetGlobalError s EGL_SUCCESS), SetGlobalError s EGL_SUCCESS)
  else
    (EGL_NO_SURFACE, SetGlobalError s EGL_BAD_PARAMETER)

/-- The entry point `GetCurrentDisplay` (lines 712-720). -/
def GetCurrentDisplay (s : State) : Handle × State :=
  (GetGlobalDisplay s, SetGlobalError s EGL_SUCCESS)

/-! ## Entry points, EGL 1.1 -/

/-- The entry point `BindTexImage` (lines 821-874). The result is `none` when the call has no
defined behaviour: the current context hands out no 2D texture object, so the assertion of
line 861 fails and line 863 goes through a null pointer. -/
def BindTexImage (s : State) (dpy : Handle) (surface : Handle) (buffer : EGLint) :
    Option (EGLBoolean × State) :=
  if !(ValidateSurface s dpy surface).1 then
    some (EGL_FALSE, (ValidateSurface s dpy surface).2)
  else
    let s0 := (ValidateSurface s dpy surface).2
    if buffer != EGL_BACK_BUFFER then
      some (EGL_FALSE, SetGlobalError s0 EGL_BAD_PARAMETER)
    else if surface == EGL_NO_SURFACE || (s0.surfaces surface).windowHandle != 0 then
      some (EGL_FALSE, SetGlobalError s0 EGL_BAD_SURFACE)
    else if (s0.surfaces surface).boundTexture != 0 then
      some (EGL_FALSE, SetGlobalError s0 EGL_BAD_ACCESS)
    else if (s0.surfaces surface).textureFormat == EGL_NO_TEXTURE then
      some (EGL_FALSE, SetGlobalError s0 EGL_BAD_MATCH)
    else
      let context := GetGlobalContext s0
      if context != 0 then
        let textureObject := (s0.contexts context).texture2D
        if textureObject == 0 then
          none
        else if (s0.textures textureObject).immutable then
          some (EGL_FALSE, SetGlobalError s0 EGL_BAD_MATCH)
        else
          some (EGL_TRUE,
            SetGlobalError (surfaceBindTexImage s0 surface textureObject buffer) EGL_SUCCESS)
      else
        some (EGL_TRUE, SetGlobalError s0 EGL_SUCCESS)

/-- The entry point `ReleaseTexImage` (lines 895-934). -/
def ReleaseTexImage (s : State) (dpy : Handle) (surface : Handle) (buffer : EGLint) :
    EGLBoolean × State :=
  if !(ValidateSurface s dpy surface).1 then
    (EGL_FALSE, (ValidateSurface s dpy surface).2)
  else
    let s0 := (ValidateSurface s dpy surface).2
    if buffer != EGL_BACK_BUFFER then
      (EGL_FALSE, SetGlobalError s0 EGL_BAD_PARAMETER)
    else if surface == EGL_NO_SURFACE || (s0.surfaces surface).windowHandle != 0 then
      (EGL_FALSE, SetGlobalError s0 EGL_BAD_SURFACE)
    else if (s0.surfaces surface).textureFormat == EGL_NO_TEXTURE then
      (EGL_FALSE, SetGlobalError s0 EGL_BAD_MATCH)
    else
      let texture := (s0.surfaces surface).boundTexture
      let s1 := if texture != 0 then surfaceReleaseTexImage s0 surface buffer else s0
      (EGL_TRUE, SetGlobalError s1 EGL_SUCCESS)

/-! ## Entry points, EGL 1.2 and 1.4 -/

/-- The entry point `CreatePbufferFromClientBuffer` (lines 996-1024); `backend` is the
outcome of `display->createOffscreenSurface`. -/
def CreatePbufferFromClientBuffer (s : State) (dpy : Handle) (buftype : EGLenum)
    (buffer : Handle) (config : Handle) (attrib_list : Option (List EGLint))
    (backend : BackendResult) : Handle × State :=
  if !(ValidateConfig s dpy config).1 then
    (EGL_NO_SURFACE, (ValidateConfig s dpy config).2)
  else if buftype != EGL_D3D_TEXTURE_2D_SHARE_HANDLE_ANGLE || buffer == 0 then
    (EGL_NO_SURFACE, SetGlobalError (ValidateConfig s dpy config).2 EGL_BAD_PARAMETER)
  else
    let s1 := displayCreateOffscreenSurface (ValidateConfig s dpy config).2 dpy config buffer
      attrib_list backend
    if isError backend.error then
      (EGL_NO_SURFACE, SetGlobalError s1 backend.error)
    else
      (backend.handle, s1)

/-- The entry point `ReleaseThread` (lines 1026-1034). -/
def ReleaseThread (s : State) : EGLBoolean × State :=
  let s1 := (MakeCurrent s EGL_NO_DISPLAY EGL_NO_CONTEXT EGL_NO_SURFACE EGL_NO_SURFACE).2
  (EGL_TRUE, SetGlobalError s1 EGL_SUCCESS)

/-- The entry point `GetCurrentContext` (lines 1047-1055). -/
def GetCurrentContext (s : State) : Handle × State :=
  (GetGlobalContext s, SetGlobalError s EGL_SUCCESS)

/-! ## Sequences of calls and the binding invariant -/

/-- A call of a public entry point that reads or writes the current binding, with its
arguments. -/
inductive Call where
  | GetError
  | Terminate (dpy : Handle)
  | DestroySurface (dpy : Handle) (surface : Handle)
  | DestroyContext (dpy : Handle) (ctx : Handle)
  | MakeCurrent (dpy : Handle) (draw : Handle) (read : Handle) (ctx : Handle)
  | GetCurrentSurface (readdraw : EGLint)
  | GetCurrentDisplay
  | ReleaseThread
  | GetCurrentContext
deriving DecidableEq, Repr

/-- The state after one call. -/
def step (s : State) : Call → State
  | .GetError => (GetError s).2
  | .Terminate dpy => (Terminate s dpy).2
  | .DestroySurface dpy surface => (DestroySurface s dpy surface).2
  | .DestroyContext dpy ctx => (DestroyContext s dpy ctx).2
  | .MakeCurrent dpy draw read ctx => (MakeCurrent s dpy draw read ctx).2
  | .GetCurrentSurface readdraw => (GetCurrentSurface s readdraw).2
  | .GetCurrentDisplay => (GetCurrentDisplay s).2
  | .ReleaseThread => (ReleaseThread s).2
  | .GetCurrentContext => (GetCurrentContext s).2

/-- The state after a sequence of calls, first call first. -/
def run (s : State) (calls : List Call) : State := calls.foldl step s

/-- The state `Unbound`: all four fields of the current binding are null. -/
def Unbound (s : State) : Prop :=
  s.display = 0 ∧ s.drawSurface = 0 ∧ s.readSurface = 0 ∧ s.context = 0

instance (s : State) : Decidable (Unbound s) := by
  unfold Unbound
  infer_instance

/-- The invariant of the data model: the current context is non-null if and only if both the
current draw surface and the current read surface are non-null. -/
def bindingInvariant (s : State) : Prop :=
  s.context ≠ 0 ↔ (s.drawSurface ≠ 0 ∧ s.readSurface ≠ 0)

instance (s : State) : Decidable (bindingInvariant s) := by
  unfold bindingInvariant
  infer_instance

/-! ## Attribute lists as sequences of entries

The attribute list of `CreateContext` as its caller writes it: entries (a key, then its
value), then the terminator `EGL_NONE`. The definitions of this section follow the decoding
rules of the specification; the lemmas below relate them to the attribute loop of the code. -/

/-- The array that holds the entries `es` (a key, then its value) followed by `rest`. -/
def entriesThen : List (EGLint × EGLint) → List EGLint → List EGLint
  | [], rest => rest
  | e :: es, rest => e.1 :: e.2 :: entriesThen es rest

/-- The attribute array that holds the entries `es`, then the terminator `EGL_NONE`, then
`tail`. -/
def attribArray (es : List (EGLint × EGLint)) (tail : List EGLint) : List EGLint :=
  entriesThen es (EGL_NONE :: tail)

/-- The keys the decoding rules recognize: client major version, client minor version,
context flags, robust access, and the two names of the reset-notification strategy. -/
def recognizedKey (key : EGLint) : Bool :=
  key == EGL_CONTEXT_CLIENT_VERSION || key == EGL_CONTEXT_MINOR_VERSION
    || key == EGL_CONTEXT_FLAGS_KHR || key == EGL_CONTEXT_OPENGL_ROBUST_ACCESS_EXT
    || key == EGL_CONTEXT_OPENGL_RESET_NOTIFICATION_STRATEGY_KHR
    || key == EGL_CONTEXT_OPENGL_RESET_NOTIFICATION_STRATEGY_EXT

/-- The key is one of the two names of the reset-notification strategy. -/
def strategyKey (key : EGLint) : Bool :=
  key == EGL_CONTEXT_OPENGL_RESET_NOTIFICATION_STRATEGY_KHR
    || key == EGL_CONTEXT_OPENGL_RESET_NOTIFICATION_STRATEGY_EXT

/-- The value of the entry is rejected by the decoding rules: a robust-access value that is
neither `EGL_TRUE` nor `EGL_FALSE`, or a reset-notification strategy that is neither of the
two accepted values. -/
def rejectedValue (key : EGLint) (value : EGLint) : Bool :=
  (key == EGL_CONTEXT_OPENGL_ROBUST_ACCESS_EXT && value != 1 && value != 0)
    || (strategyKey key && value != EGL_LOSE_CONTEXT_ON_RESET_EXT
        && value != EGL_NO_RESET_NOTIFICATION_EXT)

/-- The entry has a recognized key and a value that is not rejected. -/
def acceptedEntry (e : EGLint × EGLint) : Bool :=
  recognizedKey e.1 && !rejectedValue e.1 e.2

/-- The value of the last entry with the key `key`, or `dflt` when there is none. -/
def lastValue (key : EGLint) (dflt : EGLint) (es : List (EGLint × EGLint)) : EGLint :=
  es.foldl (fun acc e => if e.1 == key then e.2 else acc) dflt

/-- The requested client major version: `1` when no version entry is given. -/
def requestedMajorVersion (es : List (EGLint × EGLint)) : EGLint :=
  lastValue EGL_CONTEXT_CLIENT_VERSION 1 es

/-- The requested client minor version: `0` when no entry is given. -/
def requestedMinorVersion (es : List (EGLint × EGLint)) : EGLint :=
  lastValue EGL_CONTEXT_MINOR_VERSION 0 es

/-- The requested context flags bitmask: `0` when no entry is given. -/
def requestedFlags (es : List (EGLint × EGLint)) : EGLint :=
  lastValue EGL_CONTEXT_FLAGS_KHR 0 es

/-- Robust access is requested by the boolean robust-access attribute. -/
def requestedRobustAccess (es : List (EGLint × EGLint)) : Bool :=
  lastValue EGL_CONTEXT_OPENGL_ROBUST_ACCESS_EXT 0 es == 1

/-- The reset-notification flag the attribute loop computes: `true` as soon as one strategy
entry has the value lose-context-on-reset. -/
def parsedResetNotification (es : List (EGLint × EGLint)) : Bool :=
  es.any (fun e => strategyKey e.1 && e.2 == EGL_LOSE_CONTEXT_ON_RESET_EXT)

/-- The locals of `CreateContext` after the entries `es`, when the loop is entered with the
locals `a` and every entry is accepted. -/
def parsedAttribs (a : ContextAttribs) (es : List (EGLint × EGLint)) : ContextAttribs :=
  { clientMajorVersion := lastValue EGL_CONTEXT_CLIENT_VERSION a.clientMajorVersion es,
    clientMinorVersion := lastValue EGL_CONTEXT_MINOR_VERSION a.clientMinorVersion es,
    contextFlags := lastValue EGL_CONTEXT_FLAGS_KHR a.contextFlags es,
    resetNotification := a.resetNotification || parsedResetNotification es,
    robustAccess :=
      lastValue EGL_CONTEXT_OPENGL_ROBUST_ACCESS_EXT (if a.robustAccess then 1 else 0) es == 1 }

/-- The locals of `CreateContext` before the attribute loop (lines 466-470). -/
def initialAttribs : ContextAttribs :=
  { clientMajorVersion := 1, clientMinorVersion := 0, contextFlags := 0,
    resetNotification := false, robustAccess := false }

/-- The flag bits that are legal in the context flags bitmask (lines 533-534). -/
def validContextFlags : EGLint :=
  or32 EGL_CONTEXT_OPENGL_DEBUG_BIT_KHR EGL_CONTEXT_OPENGL_ROBUST_ACCESS_BIT_KHR

/-- The labels of the `case`s of the `switch` in `QuerySurface` (lines 397-450). -/
def querySurfaceCases : List EGLint :=
  [EGL_VG_ALPHA_FORMAT, EGL_VG_COLORSPACE, EGL_CONFIG_ID, EGL_HEIGHT,
    EGL_HORIZONTAL_RESOLUTION, EGL_LARGEST_PBUFFER, EGL_MIPMAP_TEXTURE, EGL_MIPMAP_LEVEL,
    EGL_MULTISAMPLE_RESOLVE, EGL_PIXEL_ASPECT_RATIO, EGL_RENDER_BUFFER, EGL_SWAP_BEHAVIOR,
    EGL_TEXTURE_FORMAT, EGL_TEXTURE_TARGET, EGL_VERTICAL_RESOLUTION, EGL_WIDTH,
    EGL_POST_SUB_BUFFER_SUPPORTED_NV, EGL_FIXED_SIZE_ANGLE]

/-! ## Example states -/

/-- An initialized display with renderer `9`, config `5`, live context `3` and live
surface `2`. -/
def exampleDisplay : Display :=
  { initialized := true, renderer := 9, configs := [5], contexts := [3], surfaces := [2] }

/-- An `Unbound` state with success pending, in which the display handle `1` is
`exampleDisplay`, the device is not lost and `4` is a native window. -/
def exampleState : State :=
  { error := EGL_SUCCESS, API := EGL_OPENGL_ES_API,
    display := 0, drawSurface := 0, readSurface := 0, context := 0,
    displays := fun h => if h = 1 then exampleDisplay else default,
    renderers := fun _ => { testDeviceLost := false, deviceLost := false },
    contexts := fun _ => default,
    surfaces := fun _ => default,
    textures := fun _ => default,
    nativeWindows := [4],
    trace := [] }

/-- The state `exampleState` with the renderer finding its device lost at the next test. -/
def newlyLostState : State :=
  { exampleState with renderers := fun _ => { testDeviceLost := true, deviceLost := false } }

/-- The state `exampleState` with the device already marked lost. -/
def markedLostState : State :=
  { exampleState with renderers := fun _ => { testDeviceLost := false, deviceLost := true } }

/-- The state `exampleState` with the error `EGL_BAD_MATCH` pending. -/
def pendingErrorState : State :=
  { exampleState with error := EGL_BAD_MATCH }

/-- A context of client version `2` without reset notification, created on renderer `9`,
whose 2D texture is the texture object `6`. -/
def exampleContext : Context :=
  { clientVersion := 2, resetNotification := false, renderer := 9, texture2D := 6 }

/-- An offscreen surface with texture format `EGL_TEXTURE_RGB` and no bound texture. -/
def examplePbuffer : Surface :=
  { (default : Surface) with textureFormat := EGL_TEXTURE_RGB, windowHandle := 0,
                             boundTexture := 0 }

/-- The state `exampleState` in which every context handle is `exampleContext` and every
surface handle is `examplePbuffer`. -/
def objectState : State :=
  { exampleState with contexts := fun _ => exampleContext, surfaces := fun _ => examplePbuffer }

/-- The state `objectState` with context `3` current on surface `2` of display `1`. -/
def boundState : State :=
  { objectState with display := 1, drawSurface := 2, readSurface := 2, context := 3 }

/-- The state `objectState` in which every surface has the texture format
`EGL_NO_TEXTURE`. -/
def noTextureState : State :=
  { objectState with surfaces := fun _ => { examplePbuffer with textureFormat := EGL_NO_TEXTURE } }

/-- The state `objectState` in which every surface is backed by the native window `4`. -/
def windowState : State :=
  { objectState with surfaces := fun _ => { examplePbuffer with windowHandle := 4 } }

/-- The state `objectState` in which every display handle other than `1` is an initialized
display with renderer `10`. -/
def twoDisplayState : State :=
  { objectState with
    displays := fun h => if h = 1 then exampleDisplay else { exampleDisplay with renderer := 10 } }

/-- An offscreen surface whose getters return ten different values. -/
def exampleQuerySurface : Surface :=
  { configID := 11, width := 640, height := 480, pixelAspectRatio := 96, renderBuffer := 12420,
    swapBehavior := 12437, textureFormat := 12381, textureTarget := 12383,
    postSubBufferSupported := 1, fixedSize := 0, windowHandle := 0, boundTexture := 0,
    swapInterval := 1 }

/-- The state `exampleState` in which every surface handle is `exampleQuerySurface`. -/
def queryState : State :=
  { exampleState with surfaces := fun _ => exampleQuerySurface }

/-- Strings for the examples. -/
def exampleStrings : DisplayStrings :=
  { extensionString := fun _ => "EGL_EXT_platform_base", vendorString := fun _ => "Vendor",
    angleVersion := "2.1" }

/-! ## Frame lemmas for the validators -/

/-- The validator `ValidateDisplay` writes no field of the binding. -/
theorem ValidateDisplay_frame (s : State) (display : Handle) :
    (ValidateDisplay s display).2.display = s.display ∧
    (ValidateDisplay s display).2.drawSurface = s.drawSurface ∧
    (ValidateDisplay s display).2.readSurface = s.readSurface ∧
    (ValidateDisplay s display).2.context = s.context := by
  unfold ValidateDisplay
  split_ifs <;> simp [SetGlobalError]

/-- The validator `ValidateContext` writes no field of the binding. -/
theorem ValidateContext_frame (s : State) (display context : Handle) :
    (ValidateContext s display context).2.display = s.display ∧
    (ValidateContext s display context).2.drawSurface = s.drawSurface ∧
    (ValidateContext s display context).2.readSurface = s.readSurface ∧
    (ValidateContext s display context).2.context = s.context := by
  have h := ValidateDisplay_frame s display
  unfold ValidateContext
  split_ifs <;> simp [SetGlobalError, h]

/-- The validator `ValidateSurface` writes no field of the binding. -/
theorem ValidateSurface_frame (s : State) (display surface : Handle) :
    (ValidateSurface s display surface).2.display = s.display ∧
    (ValidateSurface s display surface).2.drawSurface = s.drawSurface ∧
    (ValidateSurface s display surface).2.readSurface = s.readSurface ∧
    (ValidateSurface s display surface).2.context = s.context := by
  have h := ValidateDisplay_frame s display
  unfold ValidateSurface
  split_ifs <;> simp [SetGlobalError, h]

/-- A successful `ValidateDisplay` leaves the state as it was. -/
theorem ValidateDisplay_true (s : State) (display : Handle)
    (h : (ValidateDisplay s display).1 = true) : (ValidateDisplay s display).2 = s := by
  unfold ValidateDisplay at h ⊢
  split_ifs at h ⊢
  rfl

/-- A successful `ValidateConfig` leaves the state as it was. -/
theorem ValidateConfig_true (s : State) (display config : Handle)
    (h : (ValidateConfig s display config).1 = true) : (ValidateConfig s display config).2 = s := by
  unfold ValidateConfig at h ⊢
  split_ifs at h ⊢ with h1 h2
  exact ValidateDisplay_true s display (by simpa using h1)

/-- A successful `ValidateContext` leaves the state as it was. -/
theorem ValidateContext_true (s : State) (display context : Handle)
    (h : (ValidateContext s display context).1 = true) :
    (ValidateContext s display context).2 = s := by
  unfold ValidateContext at h ⊢
  split_ifs at h ⊢ with h1 h2
  exact ValidateDisplay_true s display (by simpa using h1)

/-- A successful `ValidateSurface` leaves the state as it was. -/
theorem ValidateSurface_true (s : State) (display surface : Handle)
    (h : (ValidateSurface s display surface).1 = true) :
    (ValidateSurface s display surface).2 = s := by
  unfold ValidateSurface at h ⊢
  split_ifs at h ⊢ with h1 h2
  exact ValidateDisplay_true s display (by simpa using h1)

/-- When the device-loss block of `MakeCurrent` returns, it returns `EGL_FALSE` and has written
no field of the binding. -/
theorem deviceLossCheck_frame (s : State) (dpy : Handle) (r : EGLBoolean × State)
    (h : MakeCurrent.deviceLossCheck s dpy = some r) :
    r.1 = EGL_FALSE ∧ r.2.display = s.display ∧ r.2.drawSurface = s.drawSurface ∧
    r.2.readSurface = s.readSurface ∧ r.2.context = s.context := by
  unfold MakeCurrent.deviceLossCheck at h
  simp only [] at h
  split_ifs at h <;> simp at h <;> subst h <;>
    simp [SetGlobalError, notifyDeviceLost, logEvent]

/-- The two outcomes of `MakeCurrent`: it commits the four handles and records success, or it
returns `EGL_FALSE` and leaves the binding as it was. -/
theorem MakeCurrent_outcome (s : State) (dpy draw read ctx : Handle) :
    ((MakeCurrent s dpy draw read ctx).1 = EGL_TRUE ∧
      (MakeCurrent s dpy draw read ctx).2.display = dpy ∧
      (MakeCurrent s dpy draw read ctx).2.drawSurface = draw ∧
      (MakeCurrent s dpy draw read ctx).2.readSurface = read ∧
      (MakeCurrent s dpy draw read ctx).2.context = ctx ∧
      (MakeCurrent s dpy draw read ctx).2.error = EGL_SUCCESS) ∨
    ((MakeCurrent s dpy draw read ctx).1 = EGL_FALSE ∧
      (MakeCurrent s dpy draw read ctx).2.display = s.display ∧
      (MakeCurrent s dpy draw read ctx).2.drawSurface = s.drawSurface ∧
      (MakeCurrent s dpy draw read ctx).2.readSurface = s.readSurface ∧
      (MakeCurrent s dpy draw read ctx).2.context = s.context) := by
  generalize hr : MakeCurrent s dpy draw read ctx = r
  unfold MakeCurrent at hr
  simp only [] at hr
  split at hr
  · subst hr; right; simp [SetGlobalError]
  · split at hr
    · subst hr; right; exact ⟨rfl, ValidateContext_frame s dpy ctx⟩
    · split at hr
      · rename_i r0 hd
        subst hr; right; exact deviceLossCheck_frame s dpy _ hd
      · split at hr
        · subst hr; right; exact ⟨rfl, ValidateSurface_frame s dpy draw⟩
        · split at hr
          · subst hr; right; exact ⟨rfl, ValidateSurface_frame s dpy read⟩
          · subst hr; left
            refine ⟨rfl, ?_, ?_, ?_, ?_, ?_⟩ <;>
              (simp only [SetGlobalError, SetGlobalContext, SetGlobalReadSurface,
                SetGlobalDrawSurface, SetGlobalDisplay, contextMakeCurrent, UNIMPLEMENTED,
                logEvent] <;>
               split_ifs <;> rfl)

/-- On the newly-lost-device path `MakeCurrent` returns `EGL_FALSE` in the state produced by
`notifyDeviceLost`, whose error register is the one before the call. -/
theorem MakeCurrent_newly_lost (s : State) (dpy draw read ctx : Handle)
    (hnull : ((ctx == EGL_NO_CONTEXT)
      != (draw == EGL_NO_SURFACE || read == EGL_NO_SURFACE)) = false)
    (hctx : (ctx != EGL_NO_CONTEXT && !(ValidateContext s dpy ctx).1) = false)
    (hdpy : dpy ≠ EGL_NO_DISPLAY) (hinit : isInitialized s dpy = true)
    (htest : (s.renderers (getRenderer s dpy)).testDeviceLost = true) :
    MakeCurrent s dpy draw read ctx = (EGL_FALSE, notifyDeviceLost s dpy) ∧
    (MakeCurrent s dpy draw read ctx).2.error = s.error := by
  have h3 : MakeCurrent.deviceLossCheck s dpy = some (EGL_FALSE, notifyDeviceLost s dpy) := by
    unfold MakeCurrent.deviceLossCheck
    have : (dpy != EGL_NO_DISPLAY) = true := by simpa using hdpy
    simp [this, hinit, htest]
  have h : MakeCurrent s dpy draw read ctx = (EGL_FALSE, notifyDeviceLost s dpy) := by
    unfold MakeCurrent
    simp only []
    rw [if_neg (by simp [hnull]), if_neg (by simp [hctx]), h3]
  rw [h]
  exact ⟨rfl, rfl⟩

/-- A creation call whose validation passes and whose backend call succeeds returns the
backend handle and leaves the error register as it was before the call. -/
theorem CreatePbufferSurface_success (s : State) (dpy config : Handle)
    (attrib_list : Option (List EGLint)) (backend : BackendResult)
    (hv : (ValidateConfig s dpy config).1 = true) (hb : backend.error = EGL_SUCCESS) :
    (CreatePbufferSurface s dpy config attrib_list backend).1 = backend.handle ∧
    (CreatePbufferSurface s dpy config attrib_list backend).2.error = s.error := by
  have hs := ValidateConfig_true s dpy config hv
  have he : isError backend.error = false := by simp [isError, hb]
  unfold CreatePbufferSurface
  simp only [hv, hs, he]
  simp [displayCreateOffscreenSurface, logEvent, setDisplay, he]

/-! ## The claims -/

/-- C1 (defect in the code): the invariant that the current context is non-null exactly when
both current surfaces are non-null does not hold in every reachable state. From the `Unbound`
state `exampleState`, where the invariant holds, binding context `3` with surface `2` and then
destroying context `3` (or terminating display `1`) reaches a state whose current context is
null while both current surfaces are still surface `2`. -/
theorem C1_invariant_broken_by_DestroyContext :
    Unbound exampleState ∧ bindingInvariant exampleState ∧
    bindingInvariant (run exampleState [Call.MakeCurrent 1 2 2 3]) ∧
    (run exampleState [Call.MakeCurrent 1 2 2 3, Call.DestroyContext 1 3]).context = 0 ∧
    (run exampleState [Call.MakeCurrent 1 2 2 3, Call.DestroyContext 1 3]).drawSurface = 2 ∧
    (run exampleState [Call.MakeCurrent 1 2 2 3, Call.DestroyContext 1 3]).readSurface = 2 ∧
    ¬ bindingInvariant (run exampleState [Call.MakeCurrent 1 2 2 3, Call.DestroyContext 1 3]) ∧
    ¬ bindingInvariant (run exampleState [Call.MakeCurrent 1 2 2 3, Call.Terminate 1]) := by
  decide

/-- C2 (defect in the code): a successful `DestroyContext` on the currently bound context does
not leave the binding `Unbound`. In the Bound state reached by `MakeCurrent(1, 2, 2, 3)` the
call `DestroyContext(1, 3)` returns `EGL_TRUE` and clears the current display and the current
context, but the current draw and read surfaces are still surface `2`; and in every state
`DestroyContext` leaves both current surfaces as they were. -/
theorem C2_DestroyContext_keeps_current_surfaces :
    ((MakeCurrent exampleState 1 2 2 3).2.display = 1 ∧
      (MakeCurrent exampleState 1 2 2 3).2.drawSurface = 2 ∧
      (MakeCurrent exampleState 1 2 2 3).2.readSurface = 2 ∧
      (MakeCurrent exampleState 1 2 2 3).2.context = 3) ∧
    (DestroyContext (MakeCurrent exampleState 1 2 2 3).2 1 3).1 = EGL_TRUE ∧
    (DestroyContext (MakeCurrent exampleState 1 2 2 3).2 1 3).2.display = 0 ∧
    (DestroyContext (MakeCurrent exampleState 1 2 2 3).2 1 3).2.context = 0 ∧
    (DestroyContext (MakeCurrent exampleState 1 2 2 3).2 1 3).2.drawSurface = 2 ∧
    (DestroyContext (MakeCurrent exampleState 1 2 2 3).2 1 3).2.readSurface = 2 ∧
    ¬ Unbound (DestroyContext (MakeCurrent exampleState 1 2 2 3).2 1 3).2 ∧
    (∀ (s : State) (dpy ctx : Handle),
      (DestroyContext s dpy ctx).2.drawSurface = s.drawSurface ∧
      (DestroyContext s dpy ctx).2.readSurface = s.readSurface) := by
  refine ⟨by decide, by decide, by decide, by decide, by decide, by decide, by decide, ?_⟩
  intro s dpy ctx
  have h := ValidateContext_frame s dpy ctx
  unfold DestroyContext
  simp only []
  split_ifs <;>
    simp [SetGlobalError, SetGlobalContext, SetGlobalDisplay, displayDestroyContext, logEvent,
      setDisplay, h]

/-- C3 (defect in the code): the creation calls do not write the error register when they
succeed. With `EGL_BAD_MATCH` pending, `CreatePbufferSurface`, `CreateWindowSurface`,
`CreatePbufferFromClientBuffer` and `CreateContext` each return the non-null handle produced
by the backend and leave `EGL_BAD_MATCH` pending, so the following `GetError` returns
`EGL_BAD_MATCH`, not `EGL_SUCCESS`. -/
theorem C3_creation_success_keeps_pending_error :
    pendingErrorState.error = EGL_BAD_MATCH ∧
    ((CreatePbufferSurface pendingErrorState 1 5 none ⟨EGL_SUCCESS, 7⟩).1 = 7 ∧
      (GetError (CreatePbufferSurface pendingErrorState 1 5 none ⟨EGL_SUCCESS, 7⟩).2).1
        = EGL_BAD_MATCH) ∧
    ((CreateWindowSurface pendingErrorState 1 5 4 none ⟨EGL_SUCCESS, 7⟩).1 = 7 ∧
      (GetError (CreateWindowSurface pendingErrorState 1 5 4 none ⟨EGL_SUCCESS, 7⟩).2).1
        = EGL_BAD_MATCH) ∧
    ((CreatePbufferFromClientBuffer pendingErrorState 1 EGL_D3D_TEXTURE_2D_SHARE_HANDLE_ANGLE 6 5
        none ⟨EGL_SUCCESS, 7⟩).1 = 7 ∧
      (GetError (CreatePbufferFromClientBuffer pendingErrorState 1
        EGL_D3D_TEXTURE_2D_SHARE_HANDLE_ANGLE 6 5 none ⟨EGL_SUCCESS, 7⟩).2).1
        = EGL_BAD_MATCH) ∧
    (CreateContext pendingErrorState 1 5 0 (some [EGL_CONTEXT_CLIENT_VERSION, 2, EGL_NONE])
        ⟨EGL_SUCCESS, 8⟩).map (fun r => (r.1, (GetError r.2).1))
      = some (8, EGL_BAD_MATCH) ∧
    EGL_BAD_MATCH ≠ EGL_SUCCESS := by
  decide

/-- C4 (defect in the code): on the path where the renderer newly detects a lost device,
`MakeCurrent` returns `EGL_FALSE` without writing the error register. In `newlyLostState`,
where success is pending, `MakeCurrent(1, 2, 2, 3)` returns `EGL_FALSE`, notifies the display
and leaves `EGL_SUCCESS` in the register. -/
theorem C4_MakeCurrent_lost_device_keeps_register :
    newlyLostState.error = EGL_SUCCESS ∧
    (MakeCurrent newlyLostState 1 2 2 3).1 = EGL_FALSE ∧
    (MakeCurrent newlyLostState 1 2 2 3).2.error = EGL_SUCCESS ∧
    (GetError (MakeCurrent newlyLostState 1 2 2 3).2).1 = EGL_SUCCESS ∧
    (MakeCurrent newlyLostState 1 2 2 3).2.trace = [Event.notifyDeviceLost 1] := by
  decide

/-- C5: for every state and every display handle, `MakeCurrent` with a non-null context and a
null draw surface or a null read surface returns `EGL_FALSE` and sets the error
`EGL_BAD_MATCH`. -/
theorem C5_MakeCurrent_context_without_surfaces (s : State) (dpy draw read ctx : Handle)
    (hctx : ctx ≠ EGL_NO_CONTEXT)
    (hsurf : draw = EGL_NO_SURFACE ∨ read = EGL_NO_SURFACE) :
    (MakeCurrent s dpy draw read ctx).1 = EGL_FALSE ∧
    (MakeCurrent s dpy draw read ctx).2.error = EGL_BAD_MATCH := by
  have h : ((ctx == EGL_NO_CONTEXT) != (draw == EGL_NO_SURFACE || read == EGL_NO_SURFACE))
      = true := by
    rcases hsurf with h | h <;> simp [h, hctx]
  unfold MakeCurrent
  simp only []
  rw [if_pos h]
  exact ⟨rfl, rfl⟩

/-- Witness for C5: in `exampleState`, context `3` with draw surface `2` and no read
surface. -/
theorem C5_MakeCurrent_context_without_surfaces_witness :
    (3 : Handle) ≠ EGL_NO_CONTEXT ∧
    ((2 : Handle) = EGL_NO_SURFACE ∨ (0 : Handle) = EGL_NO_SURFACE) ∧
    (MakeCurrent exampleState 1 2 0 3).1 = EGL_FALSE ∧
    (MakeCurrent exampleState 1 2 0 3).2.error = EGL_BAD_MATCH :=
  ⟨by decide, Or.inr rfl,
    C5_MakeCurrent_context_without_surfaces exampleState 1 2 0 3 (by decide) (Or.inr rfl)⟩

/-- C6 as stated fails: with a null context and exactly one non-null surface the null-ness
check of `MakeCurrent` passes. In `exampleState`, `MakeCurrent(1, 2, EGL_NO_SURFACE,
EGL_NO_CONTEXT)` and `MakeCurrent(1, EGL_NO_SURFACE, 2, EGL_NO_CONTEXT)` return `EGL_TRUE`
with `EGL_SUCCESS` and commit the binding. -/
theorem C6_counterexample_one_surface_without_context :
    (2 : Handle) ≠ EGL_NO_SURFACE ∧
    (MakeCurrent exampleState 1 2 EGL_NO_SURFACE EGL_NO_CONTEXT).1 = EGL_TRUE ∧
    (MakeCurrent exampleState 1 2 EGL_NO_SURFACE EGL_NO_CONTEXT).2.error = EGL_SUCCESS ∧
    (MakeCurrent exampleState 1 2 EGL_NO_SURFACE EGL_NO_CONTEXT).2.drawSurface = 2 ∧
    (MakeCurrent exampleState 1 2 EGL_NO_SURFACE EGL_NO_CONTEXT).2.context = 0 ∧
    (MakeCurrent exampleState 1 EGL_NO_SURFACE 2 EGL_NO_CONTEXT).1 = EGL_TRUE ∧
    (MakeCurrent exampleState 1 EGL_NO_SURFACE 2 EGL_NO_CONTEXT).2.error = EGL_SUCCESS ∧
    ¬ ((MakeCurrent exampleState 1 2 EGL_NO_SURFACE EGL_NO_CONTEXT).1 = EGL_FALSE ∧
        (MakeCurrent exampleState 1 2 EGL_NO_SURFACE EGL_NO_CONTEXT).2.error = EGL_BAD_MATCH) := by
  decide

/-- C6 (amended): for every state and every display handle, `MakeCurrent` with a null context
and both the draw surface and the read surface non-null returns `EGL_FALSE` and sets the
error `EGL_BAD_MATCH`. -/
theorem C6_MakeCurrent_surfaces_without_context (s : State) (dpy draw read : Handle)
    (hdraw : draw ≠ EGL_NO_SURFACE) (hread : read ≠ EGL_NO_SURFACE) :
    (MakeCurrent s dpy draw read EGL_NO_CONTEXT).1 = EGL_FALSE ∧
    (MakeCurrent s dpy draw read EGL_NO_CONTEXT).2.error = EGL_BAD_MATCH := by
  have h : ((EGL_NO_CONTEXT == EGL_NO_CONTEXT)
      != (draw == EGL_NO_SURFACE || read == EGL_NO_SURFACE)) = true := by
    simp [hdraw, hread]
  unfold MakeCurrent
  simp only []
  rw [if_pos h]
  exact ⟨rfl, rfl⟩

/-- Witness for C6 (amended): in `exampleState`, no context with draw and read surface
`2`. -/
theorem C6_MakeCurrent_surfaces_without_context_witness :
    (2 : Handle) ≠ EGL_NO_SURFACE ∧ (2 : Handle) ≠ EGL_NO_SURFACE ∧
    (MakeCurrent exampleState 1 2 2 EGL_NO_CONTEXT).1 = EGL_FALSE ∧
    (MakeCurrent exampleState 1 2 2 EGL_NO_CONTEXT).2.error = EGL_BAD_MATCH :=
  ⟨by decide, by decide,
    C6_MakeCurrent_surfaces_without_context exampleState 1 2 2 (by decide) (by decide)⟩

/-- C7: from every state, `MakeCurrent` with all four handles null returns `EGL_TRUE`, sets
all four fields of the current binding to null and sets the error register to
`EGL_SUCCESS`. -/
theorem C7_MakeCurrent_unbind_always_commits (s : State) :
    (MakeCurrent s EGL_NO_DISPLAY EGL_NO_SURFACE EGL_NO_SURFACE EGL_NO_CONTEXT).1 = EGL_TRUE ∧
    (MakeCurrent s EGL_NO_DISPLAY EGL_NO_SURFACE EGL_NO_SURFACE EGL_NO_CONTEXT).2.display
      = EGL_NO_DISPLAY ∧
    (MakeCurrent s EGL_NO_DISPLAY EGL_NO_SURFACE EGL_NO_SURFACE EGL_NO_CONTEXT).2.drawSurface
      = EGL_NO_SURFACE ∧
    (MakeCurrent s EGL_NO_DISPLAY EGL_NO_SURFACE EGL_NO_SURFACE EGL_NO_CONTEXT).2.readSurface
      = EGL_NO_SURFACE ∧
    (MakeCurrent s EGL_NO_DISPLAY EGL_NO_SURFACE EGL_NO_SURFACE EGL_NO_CONTEXT).2.context
      = EGL_NO_CONTEXT ∧
    (MakeCurrent s EGL_NO_DISPLAY EGL_NO_SURFACE EGL_NO_SURFACE EGL_NO_CONTEXT).2.error
      = EGL_SUCCESS := by
  refine ⟨rfl, rfl, rfl, rfl, rfl, rfl⟩

/-- C8: `MakeCurrent` is atomic on the binding state. For every state and all arguments,
either it returns `EGL_TRUE` and afterwards `GetCurrentDisplay`, `GetCurrentSurface(EGL_DRAW)`,
`GetCurrentSurface(EGL_READ)` and `GetCurrentContext` return exactly `dpy`, `draw`, `read` and
`ctx`, or it returns `EGL_FALSE` and the four fields of the binding are unchanged. -/
theorem C8_MakeCurrent_atomic (s : State) (dpy draw read ctx : Handle) :
    ((MakeCurrent s dpy draw read ctx).1 = EGL_TRUE ∧
      (GetCurrentDisplay (MakeCurrent s dpy draw read ctx).2).1 = dpy ∧
      (GetCurrentSurface (MakeCurrent s dpy draw read ctx).2 EGL_DRAW).1 = draw ∧
      (GetCurrentSurface (MakeCurrent s dpy draw read ctx).2 EGL_READ).1 = read ∧
      (GetCurrentContext (MakeCurrent s dpy draw read ctx).2).1 = ctx) ∨
    ((MakeCurrent s dpy draw read ctx).1 = EGL_FALSE ∧
      (MakeCurrent s dpy draw read ctx).2.display = s.display ∧
      (MakeCurrent s dpy draw read ctx).2.drawSurface = s.drawSurface ∧
      (MakeCurrent s dpy draw read ctx).2.readSurface = s.readSurface ∧
      (MakeCurrent s dpy draw read ctx).2.context = s.context) := by
  rcases MakeCurrent_outcome s dpy draw read ctx with h | h
  · left
    obtain ⟨h0, h1, h2, h3, h4, _⟩ := h
    refine ⟨h0, h1, ?_, ?_, h4⟩
    · have hd : (EGL_DRAW == EGL_READ) = false := by decide
      simp [GetCurrentSurface, hd, GetGlobalDrawSurface, SetGlobalError, h2]
    · simp [GetCurrentSurface, GetGlobalReadSurface, SetGlobalError, h3]
  · right
    exact h

/-- C9: for a non-null initialized display whose renderer reports no newly lost device but is
already marked lost, every `MakeCurrent` request that passes the null-ness check and whose
context, if any, is a valid context of the display returns `EGL_FALSE` and sets the error
`EGL_CONTEXT_LOST`. -/
theorem C9_MakeCurrent_device_already_lost (s : State) (dpy draw read ctx : Handle)
    (hdpy : dpy ≠ EGL_NO_DISPLAY)
    (hinit : isInitialized s dpy = true)
    (htest : (s.renderers (getRenderer s dpy)).testDeviceLost = false)
    (hlost : (s.renderers (getRenderer s dpy)).deviceLost = true)
    (hnull : ctx = EGL_NO_CONTEXT ↔ (draw = EGL_NO_SURFACE ∨ read = EGL_NO_SURFACE))
    (hctx : ctx ≠ EGL_NO_CONTEXT → isValidContext s dpy ctx = true) :
    (MakeCurrent s dpy draw read ctx).1 = EGL_FALSE ∧
    (MakeCurrent s dpy draw read ctx).2.error = EGL_CONTEXT_LOST := by
  have h1 : ¬ (((ctx == EGL_NO_CONTEXT)
      != (draw == EGL_NO_SURFACE || read == EGL_NO_SURFACE)) = true) := by
    by_cases hc : ctx = EGL_NO_CONTEXT
    · have := hnull.mp hc
      rcases this with h | h <;> simp [hc, h]
    · have hd : ¬ (draw = EGL_NO_SURFACE ∨ read = EGL_NO_SURFACE) := fun h => hc (hnull.mpr h)
      push_neg at hd
      have e1 : (ctx == EGL_NO_CONTEXT) = false := by simpa using hc
      have e2 : (draw == EGL_NO_SURFACE) = false := by simpa using hd.1
      have e3 : (read == EGL_NO_SURFACE) = false := by simpa using hd.2
      simp [e1, e2, e3]
  have hvd : ValidateDisplay s dpy = (true, s) := by
    unfold ValidateDisplay
    have : (dpy == EGL_NO_DISPLAY) = false := by simpa using hdpy
    simp [this, hinit]
  have h2 : ¬ ((ctx != EGL_NO_CONTEXT && !(ValidateContext s dpy ctx).1) = true) := by
    by_cases hc : ctx = EGL_NO_CONTEXT
    · simp [hc]
    · have hv := hctx hc
      have : (ValidateContext s dpy ctx).1 = true := by
        unfold ValidateContext
        simp [hvd, hv]
      simp [this]
  have h3 : MakeCurrent.deviceLossCheck s dpy
      = some (EGL_FALSE, SetGlobalError s EGL_CONTEXT_LOST) := by
    unfold MakeCurrent.deviceLossCheck
    have : (dpy != EGL_NO_DISPLAY) = true := by simpa using hdpy
    simp [this, hinit, htest, hlost]
  unfold MakeCurrent
  simp only []
  rw [if_neg h1, if_neg h2, h3]
  exact ⟨rfl, rfl⟩

/-- Witness for C9: in `markedLostState`, binding context `3` with surface `2` on
display `1`. -/
theorem C9_MakeCurrent_device_already_lost_witness :
    (1 : Handle) ≠ EGL_NO_DISPLAY ∧
    isInitialized markedLostState 1 = true ∧
    (markedLostState.renderers (getRenderer markedLostState 1)).testDeviceLost = false ∧
    (markedLostState.renderers (getRenderer markedLostState 1)).deviceLost = true ∧
    ((3 : Handle) = EGL_NO_CONTEXT ↔
      ((2 : Handle) = EGL_NO_SURFACE ∨ (2 : Handle) = EGL_NO_SURFACE)) ∧
    ((3 : Handle) ≠ EGL_NO_CONTEXT → isValidContext markedLostState 1 3 = true) ∧
    (MakeCurrent markedLostState 1 2 2 3).1 = EGL_FALSE ∧
    (MakeCurrent markedLostState 1 2 2 3).2.error = EGL_CONTEXT_LOST :=
  ⟨by decide, by decide, by decide, by decide, by decide, by decide,
    C9_MakeCurrent_device_already_lost markedLostState 1 2 2 3 (by decide) (by decide)
      (by decide) (by decide) (by decide) (by decide)⟩

/-- C10: `GetError` returns the error code held in the register and leaves the register at
`EGL_SUCCESS`; hence a second `GetError` returns `EGL_SUCCESS`, and `GetError` changes none of
the four fields of the binding. -/
theorem C10_GetError_consumes (s : State) :
    (GetError s).1 = s.error ∧
    (GetError s).2.error = EGL_SUCCESS ∧
    (GetError (GetError s).2).1 = EGL_SUCCESS ∧
    (GetError (GetError s).2).2.error = EGL_SUCCESS ∧
    (GetError s).2.display = s.display ∧
    (GetError s).2.drawSurface = s.drawSurface ∧
    (GetError s).2.readSurface = s.readSurface ∧
    (GetError s).2.context = s.context :=
  ⟨rfl, rfl, rfl, rfl, rfl, rfl, rfl, rfl⟩

/-! ## The attribute loop on lists of entries -/

/-- Every error with which the body of the attribute loop returns is `EGL_BAD_ATTRIBUTE`. -/
theorem attribCase_error (key value : EGLint) (a : ContextAttribs) (code : EGLint)
    (h : CreateContext.attribCase key value a = .error code) : code = EGL_BAD_ATTRIBUTE := by
  unfold CreateContext.attribCase at h
  split_ifs at h <;> simp at h <;> exact h.symm

/-- The terminator is not a recognized key. -/
theorem recognizedKey_ne_none (key : EGLint) (h : recognizedKey key = true) :
    (key == EGL_NONE) = false := by
  by_contra hc
  have hk : key = EGL_NONE := by simpa using hc
  subst hk
  revert h
  decide

/-- The loop body on an accepted entry updates the locals, and the locals after the remaining
entries are the ones `parsedAttribs` describes. -/
theorem attribCase_accepted (key value : EGLint) (a : ContextAttribs)
    (es : List (EGLint × EGLint)) (h : acceptedEntry (key, value) = true) :
    ∃ a1, CreateContext.attribCase key value a = .ok a1 ∧
      parsedAttribs a ((key, value) :: es) = parsedAttribs a1 es := by
  simp only [acceptedEntry, recognizedKey, Bool.and_eq_true, Bool.or_eq_true, beq_iff_eq,
    Bool.not_eq_true'] at h
  obtain ⟨hk, hv⟩ := h
  rcases hk with ((((hk | hk) | hk) | hk) | hk) | hk <;> subst hk
  · refine ⟨_, rfl, ?_⟩
    simp [parsedAttribs, lastValue, parsedResetNotification, strategyKey,
      EGL_CONTEXT_CLIENT_VERSION, EGL_CONTEXT_MINOR_VERSION, EGL_CONTEXT_FLAGS_KHR,
      EGL_CONTEXT_OPENGL_ROBUST_ACCESS_EXT, EGL_CONTEXT_OPENGL_RESET_NOTIFICATION_STRATEGY_KHR,
      EGL_CONTEXT_OPENGL_RESET_NOTIFICATION_STRATEGY_EXT]
  · refine ⟨_, rfl, ?_⟩
    simp [parsedAttribs, lastValue, parsedResetNotification, strategyKey,
      EGL_CONTEXT_CLIENT_VERSION, EGL_CONTEXT_MINOR_VERSION, EGL_CONTEXT_FLAGS_KHR,
      EGL_CONTEXT_OPENGL_ROBUST_ACCESS_EXT, EGL_CONTEXT_OPENGL_RESET_NOTIFICATION_STRATEGY_KHR,
      EGL_CONTEXT_OPENGL_RESET_NOTIFICATION_STRATEGY_EXT]
  · refine ⟨_, rfl, ?_⟩
    simp [parsedAttribs, lastValue, parsedResetNotification, strategyKey,
      EGL_CONTEXT_CLIENT_VERSION, EGL_CONTEXT_MINOR_VERSION, EGL_CONTEXT_FLAGS_KHR,
      EGL_CONTEXT_OPENGL_ROBUST_ACCESS_EXT, EGL_CONTEXT_OPENGL_RESET_NOTIFICATION_STRATEGY_KHR,
      EGL_CONTEXT_OPENGL_RESET_NOTIFICATION_STRATEGY_EXT]
  · have hv2 : value = 1 ∨ value = 0 := by
      simp [rejectedValue, strategyKey, EGL_CONTEXT_OPENGL_ROBUST_ACCESS_EXT,
        EGL_CONTEXT_OPENGL_RESET_NOTIFICATION_STRATEGY_KHR,
        EGL_CONTEXT_OPENGL_RESET_NOTIFICATION_STRATEGY_EXT] at hv
      by_cases h1 : value = 1
      · exact Or.inl h1
      · exact Or.inr (hv h1)
    rcases hv2 with hv2 | hv2 <;> subst hv2 <;> refine ⟨_, rfl, ?_⟩ <;>
      simp [parsedAttribs, lastValue, parsedResetNotification, strategyKey,
        EGL_CONTEXT_CLIENT_VERSION, EGL_CONTEXT_MINOR_VERSION, EGL_CONTEXT_FLAGS_KHR,
        EGL_CONTEXT_OPENGL_ROBUST_ACCESS_EXT, EGL_CONTEXT_OPENGL_RESET_NOTIFICATION_STRATEGY_KHR,
        EGL_CONTEXT_OPENGL_RESET_NOTIFICATION_STRATEGY_EXT, EGL_TRUE, EGL_FALSE]
  · have hv2 : value = EGL_LOSE_CONTEXT_ON_RESET_EXT ∨ value = EGL_NO_RESET_NOTIFICATION_EXT := by
      simp [rejectedValue, strategyKey, EGL_CONTEXT_OPENGL_ROBUST_ACCESS_EXT,
        EGL_CONTEXT_OPENGL_RESET_NOTIFICATION_STRATEGY_KHR,
        EGL_CONTEXT_OPENGL_RESET_NOTIFICATION_STRATEGY_EXT] at hv
      by_cases h1 : value = EGL_LOSE_CONTEXT_ON_RESET_EXT
      · exact Or.inl h1
      · exact Or.inr (hv h1)
    rcases hv2 with hv2 | hv2 <;> subst hv2 <;> refine ⟨_, rfl, ?_⟩ <;>
      simp [parsedAttribs, lastValue, parsedResetNotification, strategyKey,
        EGL_CONTEXT_CLIENT_VERSION, EGL_CONTEXT_MINOR_VERSION, EGL_CONTEXT_FLAGS_KHR,
        EGL_CONTEXT_OPENGL_ROBUST_ACCESS_EXT, EGL_CONTEXT_OPENGL_RESET_NOTIFICATION_STRATEGY_KHR,
        EGL_CONTEXT_OPENGL_RESET_NOTIFICATION_STRATEGY_EXT, EGL_LOSE_CONTEXT_ON_RESET_EXT,
        EGL_NO_RESET_NOTIFICATION_EXT]
  · have hv2 : value = EGL_LOSE_CONTEXT_ON_RESET_EXT ∨ value = EGL_NO_RESET_NOTIFICATION_EXT := by
      simp [rejectedValue, strategyKey, EGL_CONTEXT_OPENGL_ROBUST_ACCESS_EXT,
        EGL_CONTEXT_OPENGL_RESET_NOTIFICATION_STRATEGY_KHR,
        EGL_CONTEXT_OPENGL_RESET_NOTIFICATION_STRATEGY_EXT] at hv
      by_cases h1 : value = EGL_LOSE_CONTEXT_ON_RESET_EXT
      · exact Or.inl h1
      · exact Or.inr (hv h1)
    rcases hv2 with hv2 | hv2 <;> subst hv2 <;> refine ⟨_, rfl, ?_⟩ <;>
      simp [parsedAttribs, lastValue, parsedResetNotification, strategyKey,
        EGL_CONTEXT_CLIENT_VERSION, EGL_CONTEXT_MINOR_VERSION, EGL_CONTEXT_FLAGS_KHR,
        EGL_CONTEXT_OPENGL_ROBUST_ACCESS_EXT, EGL_CONTEXT_OPENGL_RESET_NOTIFICATION_STRATEGY_KHR,
        EGL_CONTEXT_OPENGL_RESET_NOTIFICATION_STRATEGY_EXT, EGL_LOSE_CONTEXT_ON_RESET_EXT,
        EGL_NO_RESET_NOTIFICATION_EXT]

/-- With no entries the locals are unchanged. -/
theorem parsedAttribs_nil (a : ContextAttribs) : parsedAttribs a [] = a := by
  cases a with
  | mk major minor flags reset robust =>
    cases robust <;> simp [parsedAttribs, lastValue, parsedResetNotification]

/-- The attribute loop on an array of accepted entries ends at the terminator with the locals
that `parsedAttribs` describes. -/
theorem attribLoop_accepted (es : List (EGLint × EGLint)) (tail : List EGLint)
    (a : ContextAttribs) (h : ∀ e ∈ es, acceptedEntry e = true) :
    CreateContext.attribLoop (attribArray es tail) a = .done (parsedAttribs a es) := by
  induction es generalizing a with
  | nil =>
    rw [parsedAttribs_nil]
    cases tail <;> simp [attribArray, entriesThen, CreateContext.attribLoop]
  | cons e es ih =>
    obtain ⟨key, value⟩ := e
    have hacc : acceptedEntry (key, value) = true := h (key, value) (List.mem_cons_self _ _)
    have hrec : recognizedKey key = true := by
      simp only [acceptedEntry, Bool.and_eq_true] at hacc
      exact hacc.1
    have hne := recognizedKey_ne_none key hrec
    obtain ⟨a1, h1, h2⟩ := attribCase_accepted key value a es hacc
    have ih1 := ih a1 (fun e he => h e (List.mem_cons_of_mem _ he))
    show CreateContext.attribLoop (key :: value :: attribArray es tail) a = _
    rw [CreateContext.attribLoop, hne, h1, h2]
    simpa using ih1

/-- The loop body rejects an entry whose key is not recognized or whose value is rejected. -/
theorem attribCase_rejected (key value : EGLint) (a : ContextAttribs)
    (h : recognizedKey key = false ∨ rejectedValue key value = true) :
    CreateContext.attribCase key value a = .error EGL_BAD_ATTRIBUTE := by
  unfold CreateContext.attribCase
  rcases h with h | h
  · simp only [recognizedKey, Bool.or_eq_false_iff] at h
    obtain ⟨⟨⟨⟨⟨h1, h2⟩, h3⟩, h4⟩, h5⟩, h6⟩ := h
    simp [h1, h2, h3, h4, h5, h6]
  · simp only [rejectedValue, strategyKey, Bool.or_eq_true, Bool.and_eq_true, beq_iff_eq,
      bne_iff_ne] at h
    rcases h with ⟨⟨hk, hv1⟩, hv0⟩ | ⟨⟨hk, hv1⟩, hv2⟩
    · subst hk
      simp [EGL_CONTEXT_CLIENT_VERSION, EGL_CONTEXT_MINOR_VERSION, EGL_CONTEXT_FLAGS_KHR,
        EGL_CONTEXT_OPENGL_PROFILE_MASK_KHR, EGL_CONTEXT_OPENGL_ROBUST_ACCESS_EXT,
        EGL_TRUE, EGL_FALSE, hv1, hv0]
    · rcases hk with hk | hk <;> subst hk <;>
        simp [EGL_CONTEXT_CLIENT_VERSION, EGL_CONTEXT_MINOR_VERSION, EGL_CONTEXT_FLAGS_KHR,
          EGL_CONTEXT_OPENGL_PROFILE_MASK_KHR, EGL_CONTEXT_OPENGL_ROBUST_ACCESS_EXT,
          EGL_CONTEXT_OPENGL_RESET_NOTIFICATION_STRATEGY_KHR,
          EGL_CONTEXT_OPENGL_RESET_NOTIFICATION_STRATEGY_EXT, hv1, hv2]

/-- The attribute loop fails with `EGL_BAD_ATTRIBUTE` on an array that holds, after any
entries and before any terminator, a key that is not recognized, or a recognized key with a
rejected value. -/
theorem attribLoop_rejected (pre : List (EGLint × EGLint)) (key : EGLint) (rest : List EGLint)
    (a : ContextAttribs) (hpre : ∀ e ∈ pre, e.1 ≠ EGL_NONE) (hkey : key ≠ EGL_NONE)
    (h : recognizedKey key = false ∨
      ∃ value rest1, rest = value :: rest1 ∧ rejectedValue key value = true) :
    CreateContext.attribLoop (entriesThen pre (key :: rest)) a = .failed EGL_BAD_ATTRIBUTE := by
  have hk : (key == EGL_NONE) = false := by simpa using hkey
  induction pre generalizing a with
  | nil =>
    show CreateContext.attribLoop (key :: rest) a = _
    cases rest with
    | nil =>
      rcases h with h | ⟨value, rest1, hr, _⟩
      · have hr : CreateContext.readsValue key = false := h
        rw [CreateContext.attribLoop, hk, hr]
        simp
      · simp at hr
    | cons value rest1 =>
      have hc : CreateContext.attribCase key value a = .error EGL_BAD_ATTRIBUTE := by
        apply attribCase_rejected
        rcases h with h | ⟨value1, rest2, hr, hv⟩
        · exact Or.inl h
        · simp only [List.cons.injEq] at hr
          rw [hr.1]
          exact Or.inr hv
      rw [CreateContext.attribLoop, hk, hc]
      simp
  | cons e pre ih =>
    obtain ⟨key0, value0⟩ := e
    have hk0 : (key0 == EGL_NONE) = false := by
      simpa using hpre (key0, value0) (List.mem_cons_self _ _)
    have ih1 := fun a1 => ih a1 (fun e he => hpre e (List.mem_cons_of_mem _ he))
    show CreateContext.attribLoop (key0 :: value0 :: entriesThen pre (key :: rest)) a = _
    rw [CreateContext.attribLoop, hk0]
    cases hc : CreateContext.attribCase key0 value0 a with
    | error code =>
      have := attribCase_error key0 value0 a code hc
      subst this
      simp
    | ok a1 =>
      simpa using ih1 a1

/-- The locals of `CreateContext` after the loop over accepted entries are the requested
values. -/
theorem parsedAttribs_initial (es : List (EGLint × EGLint)) :
    parsedAttribs initialAttribs es =
      { clientMajorVersion := requestedMajorVersion es,
        clientMinorVersion := requestedMinorVersion es,
        contextFlags := requestedFlags es,
        resetNotification := parsedResetNotification es,
        robustAccess := requestedRobustAccess es } := by
  simp [parsedAttribs, initialAttribs, requestedMajorVersion, requestedMinorVersion,
    requestedFlags, requestedRobustAccess]

/-- The bitwise and of a 32-bit integer with the robust-access bit is not negative. -/
theorem and32_robust_bit_nonneg (x : EGLint) :
    0 ≤ and32 x EGL_CONTEXT_OPENGL_ROBUST_ACCESS_BIT_KHR := by
  have h4 : toU32 EGL_CONTEXT_OPENGL_ROBUST_ACCESS_BIT_KHR = 4 := by decide
  have hle : toU32 x &&& 4 ≤ 4 := Nat.and_le_right
  unfold and32 ofU32
  rw [h4]
  split_ifs with h
  · exact Int.natCast_nonneg _
  · omega

/-- After an array of accepted entries that requests client version 2 or 3 with minor
version 0, only legal flag bits and no robust access, `CreateContext` is at the share-context
block (lines 555-577) followed by the end of the function (lines 579-593). -/
theorem CreateContext_valid_attribs (s : State) (dpy config share_context : Handle)
    (backend : BackendResult) (es : List (EGLint × EGLint)) (tail : List EGLint)
    (hacc : ∀ e ∈ es, acceptedEntry e = true)
    (hmajor : requestedMajorVersion es = 2 ∨ requestedMajorVersion es = 3)
    (hminor : requestedMinorVersion es = 0)
    (hflags : and32 (requestedFlags es) (not32 validContextFlags) = 0)
    (hbit : and32 (requestedFlags es) EGL_CONTEXT_OPENGL_ROBUST_ACCESS_BIT_KHR = 0)
    (hrobust : requestedRobustAccess es = false) :
    CreateContext s dpy config share_context (some (attribArray es tail)) backend =
      if share_context != 0 then
        if (s.contexts share_context).resetNotification != parsedResetNotification es then
          some (EGL_NO_CONTEXT, SetGlobalError s EGL_BAD_MATCH)
        else if (s.contexts share_context).clientVersion != requestedMajorVersion es then
          some (EGL_NO_CONTEXT, SetGlobalError s EGL_BAD_CONTEXT)
        else if dpy == 0 then
          none
        else if (s.contexts share_context).renderer != getRenderer s dpy then
          some (EGL_NO_CONTEXT, SetGlobalError s EGL_BAD_MATCH)
        else
          some (CreateContext.create s dpy config share_context
            (parsedAttribs initialAttribs es) false backend)
      else
        some (CreateContext.create s dpy config share_context
          (parsedAttribs initialAttribs es) false backend) := by
  have hloop := attribLoop_accepted es tail initialAttribs hacc
  have hv : ((requestedMajorVersion es != 2 && requestedMajorVersion es != 3)
      || requestedMinorVersion es != 0) = false := by
    rcases hmajor with h | h <;> simp [h, hminor]
  have hf : (and32 (requestedFlags es) (not32 validContextFlags) != 0) = false := by
    simp [hflags]
  have ha0 : ContextAttribs.mk 1 0 0 false false = initialAttribs := rfl
  have hvf : or32 EGL_CONTEXT_OPENGL_DEBUG_BIT_KHR EGL_CONTEXT_OPENGL_ROBUST_ACCESS_BIT_KHR
      = validContextFlags := rfl
  unfold CreateContext
  simp only []
  rw [ha0, hloop, hvf]
  simp only [parsedAttribs_initial]
  simp [hv, hf, hbit, hrobust]

/-- The validator `ValidateDisplay` passes on a non-null initialized display. -/
theorem ValidateDisplay_ok (s : State) (dpy : Handle) (hdpy : dpy ≠ EGL_NO_DISPLAY)
    (hinit : isInitialized s dpy = true) : ValidateDisplay s dpy = (true, s) := by
  have hb : (dpy == EGL_NO_DISPLAY) = false := by simpa using hdpy
  simp [ValidateDisplay, hb, hinit]

/-- The validator `ValidateConfig` passes on a valid config of a non-null initialized
display. -/
theorem ValidateConfig_ok (s : State) (dpy config : Handle) (hdpy : dpy ≠ EGL_NO_DISPLAY)
    (hinit : isInitialized s dpy = true) (hcfg : isValidConfig s dpy config = true) :
    ValidateConfig s dpy config = (true, s) := by
  unfold ValidateConfig
  rw [ValidateDisplay_ok s dpy hdpy hinit]
  simp [hcfg]

/-- The validator `ValidateSurface` passes on a valid surface of a non-null initialized
display. -/
theorem ValidateSurface_ok (s : State) (dpy surface : Handle) (hdpy : dpy ≠ EGL_NO_DISPLAY)
    (hinit : isInitialized s dpy = true) (hsurf : isValidSurface s dpy surface = true) :
    ValidateSurface s dpy surface = (true, s) := by
  unfold ValidateSurface
  rw [ValidateDisplay_ok s dpy hdpy hinit]
  simp [hsurf]

/-- When `ValidateSurface` passes, the display is non-null and initialized and the surface is
one of its live surfaces. -/
theorem ValidateSurface_pass (s : State) (dpy surface : Handle)
    (h : (ValidateSurface s dpy surface).1 = true) :
    dpy ≠ EGL_NO_DISPLAY ∧ isInitialized s dpy = true ∧ isValidSurface s dpy surface = true := by
  unfold ValidateSurface ValidateDisplay at h
  split_ifs at h with h1 h2 h3 h4 h5 h6 <;> simp_all

/-! ## The claims on the validators, the attribute parser and context creation -/

/-- C11: the handle validators form a chain with the display checked first.
`ValidateDisplay(d)` fails with `EGL_BAD_DISPLAY` if `d` is the null display, else with
`EGL_NOT_INITIALIZED` if `d` is not initialized, else returns `true` and leaves the state as it
was. `ValidateConfig`, `ValidateContext` and `ValidateSurface` return exactly what
`ValidateDisplay(d)` returns whenever it fails, whatever `x` is; otherwise they fail with
`EGL_BAD_CONFIG`, `EGL_BAD_CONTEXT`, `EGL_BAD_SURFACE` exactly when `x` is not a valid config,
context, surface of `d`, and otherwise return `true` and leave the state as it was. -/
theorem C11_validator_chain (s : State) (d x : Handle) :
    (d = EGL_NO_DISPLAY → ValidateDisplay s d = (false, SetGlobalError s EGL_BAD_DISPLAY)) ∧
    (d ≠ EGL_NO_DISPLAY → isInitialized s d = false →
      ValidateDisplay s d = (false, SetGlobalError s EGL_NOT_INITIALIZED)) ∧
    (d ≠ EGL_NO_DISPLAY → isInitialized s d = true → ValidateDisplay s d = (true, s)) ∧
    ((ValidateDisplay s d).1 = false →
      ValidateConfig s d x = ValidateDisplay s d ∧
      ValidateContext s d x = ValidateDisplay s d ∧
      ValidateSurface s d x = ValidateDisplay s d) ∧
    ((ValidateDisplay s d).1 = true →
      ValidateConfig s d x =
        (if isValidConfig s d x then (true, s) else (false, SetGlobalError s EGL_BAD_CONFIG)) ∧
      ValidateContext s d x =
        (if isValidContext s d x then (true, s) else (false, SetGlobalError s EGL_BAD_CONTEXT)) ∧
      ValidateSurface s d x =
        (if isValidSurface s d x then (true, s)
         else (false, SetGlobalError s EGL_BAD_SURFACE))) := by
  refine ⟨?_, ?_, ?_, ?_, ?_⟩
  · intro h
    subst h
    rfl
  · intro h hi
    have hb : (d == EGL_NO_DISPLAY) = false := by simpa using h
    simp [ValidateDisplay, hb, hi]
  · intro h hi
    have hb : (d == EGL_NO_DISPLAY) = false := by simpa using h
    simp [ValidateDisplay, hb, hi]
  · intro h
    have hfst : ∀ r : Bool × State, r.1 = false → (false, r.2) = r := by
      intro r hr
      cases r
      simp_all
    refine ⟨?_, ?_, ?_⟩
    · unfold ValidateConfig
      simp [h, hfst]
    · unfold ValidateContext
      simp [h, hfst]
    · unfold ValidateSurface
      simp [h, hfst]
  · intro h
    have hs := ValidateDisplay_true s d h
    refine ⟨?_, ?_, ?_⟩
    · unfold ValidateConfig
      rw [hs]
      cases hv : isValidConfig s d x <;> simp [h]
    · unfold ValidateContext
      rw [hs]
      cases hv : isValidContext s d x <;> simp [h]
    · unfold ValidateSurface
      rw [hs]
      cases hv : isValidSurface s d x <;> simp [h]

/-- C12: for every display, config and share context, and every attribute list of accepted
entries (the null list included), `CreateContext` returns `EGL_NO_CONTEXT` with
`EGL_BAD_CONFIG` whenever the requested client major version (1 when no version entry is
given) is not 2 or 3, or the requested minor version is not 0. The state after the call
differs from the state before only in the error register: no backend call is recorded. -/
theorem C12_CreateContext_rejects_client_version (s : State) (dpy config share_context : Handle)
    (backend : BackendResult) (es : List (EGLint × EGLint)) (tail : List EGLint)
    (hacc : ∀ e ∈ es, acceptedEntry e = true)
    (hver : (requestedMajorVersion es ≠ 2 ∧ requestedMajorVersion es ≠ 3)
      ∨ requestedMinorVersion es ≠ 0) :
    CreateContext s dpy config share_context (some (attribArray es tail)) backend
      = some (EGL_NO_CONTEXT, SetGlobalError s EGL_BAD_CONFIG) ∧
    CreateContext s dpy config share_context none backend
      = some (EGL_NO_CONTEXT, SetGlobalError s EGL_BAD_CONFIG) ∧
    (SetGlobalError s EGL_BAD_CONFIG).trace = s.trace := by
  refine ⟨?_, rfl, rfl⟩
  have hloop := attribLoop_accepted es tail initialAttribs hacc
  have ha0 : ContextAttribs.mk 1 0 0 false false = initialAttribs := rfl
  have hv : ((requestedMajorVersion es != 2 && requestedMajorVersion es != 3)
      || requestedMinorVersion es != 0) = true := by
    rcases hver with ⟨h2, h3⟩ | h <;> simp_all
  unfold CreateContext
  simp only []
  rw [ha0, hloop]
  simp only [parsedAttribs_initial]
  rw [if_pos hv]

/-- Witness for C12: the list that requests client version 1. -/
theorem C12_CreateContext_rejects_client_version_witness :
    (∀ e ∈ [(EGL_CONTEXT_CLIENT_VERSION, (1 : EGLint))], acceptedEntry e = true) ∧
    ((requestedMajorVersion [(EGL_CONTEXT_CLIENT_VERSION, 1)] ≠ 2 ∧
        requestedMajorVersion [(EGL_CONTEXT_CLIENT_VERSION, 1)] ≠ 3)
      ∨ requestedMinorVersion [(EGL_CONTEXT_CLIENT_VERSION, 1)] ≠ 0) ∧
    (CreateContext exampleState 1 5 0
        (some (attribArray [(EGL_CONTEXT_CLIENT_VERSION, 1)] [])) ⟨EGL_SUCCESS, 8⟩
      = some (EGL_NO_CONTEXT, SetGlobalError exampleState EGL_BAD_CONFIG) ∧
    CreateContext exampleState 1 5 0 none ⟨EGL_SUCCESS, 8⟩
      = some (EGL_NO_CONTEXT, SetGlobalError exampleState EGL_BAD_CONFIG) ∧
    (SetGlobalError exampleState EGL_BAD_CONFIG).trace = exampleState.trace) :=
  ⟨by decide, by decide,
    C12_CreateContext_rejects_client_version exampleState 1 5 0 ⟨EGL_SUCCESS, 8⟩
      [(EGL_CONTEXT_CLIENT_VERSION, 1)] [] (by decide) (by decide)⟩

/-- C13: for a non-null initialized display, a config valid for it, no share context and an
attribute list of accepted entries that requests client major version 2 or 3 with minor
version 0, only legal flag bits and no robust access, `CreateContext` returns the outcome of
the backend. The display's `createContext` is called with the requested major version, the
parsed reset-notification flag and `robustAccess = false`; when it succeeds the call returns
the handle it produced, and when it fails the call returns `EGL_NO_CONTEXT` with the error
code of the backend. -/
theorem C13_CreateContext_returns_backend_outcome (s : State) (dpy config : Handle)
    (backend : BackendResult) (es : List (EGLint × EGLint)) (tail : List EGLint)
    (hdpy : dpy ≠ EGL_NO_DISPLAY) (hinit : isInitialized s dpy = true)
    (hcfg : isValidConfig s dpy config = true)
    (hacc : ∀ e ∈ es, acceptedEntry e = true)
    (hmajor : requestedMajorVersion es = 2 ∨ requestedMajorVersion es = 3)
    (hminor : requestedMinorVersion es = 0)
    (hflags : and32 (requestedFlags es) (not32 validContextFlags) = 0)
    (hbit : and32 (requestedFlags es) EGL_CONTEXT_OPENGL_ROBUST_ACCESS_BIT_KHR = 0)
    (hrobust : requestedRobustAccess es = false) :
    (displayCreateContext s dpy config (requestedMajorVersion es) EGL_NO_CONTEXT
        (parsedResetNotification es) false backend).trace
      = Event.createContext dpy config (requestedMajorVersion es) EGL_NO_CONTEXT
          (parsedResetNotification es) false :: s.trace ∧
    (backend.error = EGL_SUCCESS →
      CreateContext s dpy config EGL_NO_CONTEXT (some (attribArray es tail)) backend
        = some (backend.handle,
            displayCreateContext s dpy config (requestedMajorVersion es) EGL_NO_CONTEXT
              (parsedResetNotification es) false backend)) ∧
    (backend.error ≠ EGL_SUCCESS →
      CreateContext s dpy config EGL_NO_CONTEXT (some (attribArray es tail)) backend
        = some (EGL_NO_CONTEXT,
            SetGlobalError
              (displayCreateContext s dpy config (requestedMajorVersion es) EGL_NO_CONTEXT
                (parsedResetNotification es) false backend)
              backend.error)) := by
  have h := CreateContext_valid_attribs s dpy config EGL_NO_CONTEXT backend es tail hacc hmajor
    hminor hflags hbit hrobust
  have hn : (EGL_NO_CONTEXT != 0) = false := by decide
  rw [hn] at h
  simp only [Bool.false_eq_true, if_false] at h
  have hv := ValidateConfig_ok s dpy config hdpy hinit hcfg
  refine ⟨?_, ?_, ?_⟩
  · unfold displayCreateContext logEvent setDisplay
    split_ifs <;> rfl
  · intro hb
    have he : isError backend.error = false := by simp [isError, hb]
    rw [h]
    unfold CreateContext.create
    simp [hv, he, parsedAttribs_initial]
  · intro hb
    have he : isError backend.error = true := by simp [isError, hb]
    rw [h]
    unfold CreateContext.create
    simp [hv, he, parsedAttribs_initial]

/-- Witness for C13: client version 3 with the debug bit on display `1` with config `5`; the
backend succeeds with the handle `8`. -/
theorem C13_CreateContext_returns_backend_outcome_witness :
    (1 : Handle) ≠ EGL_NO_DISPLAY ∧ isInitialized exampleState 1 = true ∧
    isValidConfig exampleState 1 5 = true ∧
    (∀ e ∈ [(EGL_CONTEXT_CLIENT_VERSION, (3 : EGLint)), (EGL_CONTEXT_FLAGS_KHR, 1)],
      acceptedEntry e = true) ∧
    (displayCreateContext exampleState 1 5
        (requestedMajorVersion [(EGL_CONTEXT_CLIENT_VERSION, 3), (EGL_CONTEXT_FLAGS_KHR, 1)])
        EGL_NO_CONTEXT
        (parsedResetNotification [(EGL_CONTEXT_CLIENT_VERSION, 3), (EGL_CONTEXT_FLAGS_KHR, 1)])
        false ⟨EGL_SUCCESS, 8⟩).trace
      = Event.createContext 1 5
          (requestedMajorVersion [(EGL_CONTEXT_CLIENT_VERSION, 3), (EGL_CONTEXT_FLAGS_KHR, 1)])
          EGL_NO_CONTEXT
          (parsedResetNotification [(EGL_CONTEXT_CLIENT_VERSION, 3), (EGL_CONTEXT_FLAGS_KHR, 1)])
          false :: exampleState.trace ∧
    CreateContext exampleState 1 5 EGL_NO_CONTEXT
        (some (attribArray [(EGL_CONTEXT_CLIENT_VERSION, 3), (EGL_CONTEXT_FLAGS_KHR, 1)] []))
        ⟨EGL_SUCCESS, 8⟩
      = some (8,
          displayCreateContext exampleState 1 5
            (requestedMajorVersion [(EGL_CONTEXT_CLIENT_VERSION, 3), (EGL_CONTEXT_FLAGS_KHR, 1)])
            EGL_NO_CONTEXT
            (parsedResetNotification
              [(EGL_CONTEXT_CLIENT_VERSION, 3), (EGL_CONTEXT_FLAGS_KHR, 1)])
            false ⟨EGL_SUCCESS, 8⟩) :=
  have h := C13_CreateContext_returns_backend_outcome exampleState 1 5 ⟨EGL_SUCCESS, 8⟩
    [(EGL_CONTEXT_CLIENT_VERSION, 3), (EGL_CONTEXT_FLAGS_KHR, 1)] []
    (by decide) (by decide) (by decide) (by decide) (by decide) (by decide) (by decide)
    (by decide) (by decide)
  ⟨by decide, by decide, by decide, by decide, h.1, h.2.1 rfl⟩

/-- C14: for every non-null attribute list that holds, at a key position before any
terminator, a key that is not recognized (the OpenGL profile-mask key included), a
robust-access entry whose value is neither `EGL_TRUE` nor `EGL_FALSE`, or a reset-notification
strategy entry whose value is neither of the two accepted values, `CreateContext` returns
`EGL_NO_CONTEXT` with `EGL_BAD_ATTRIBUTE`, whatever the other entries, the display, the config
and the share context are. -/
theorem C14_CreateContext_rejects_bad_entry (s : State) (dpy config share_context : Handle)
    (backend : BackendResult) (pre : List (EGLint × EGLint)) (key : EGLint)
    (rest : List EGLint)
    (hpre : ∀ e ∈ pre, e.1 ≠ EGL_NONE) (hkey : key ≠ EGL_NONE)
    (hbad : recognizedKey key = false ∨
      ∃ value rest1, rest = value :: rest1 ∧ rejectedValue key value = true) :
    CreateContext s dpy config share_context (some (entriesThen pre (key :: rest))) backend
      = some (EGL_NO_CONTEXT, SetGlobalError s EGL_BAD_ATTRIBUTE) := by
  have hloop := attribLoop_rejected pre key rest (ContextAttribs.mk 1 0 0 false false) hpre hkey
    hbad
  unfold CreateContext
  simp only []
  rw [hloop]

/-- Witness for C14: after a version entry, the profile-mask key, a robust-access value `2`
and a strategy value `0` are each rejected. -/
theorem C14_CreateContext_rejects_bad_entry_witness :
    (∀ e ∈ [(EGL_CONTEXT_CLIENT_VERSION, (2 : EGLint))], e.1 ≠ EGL_NONE) ∧
    EGL_CONTEXT_OPENGL_PROFILE_MASK_KHR ≠ EGL_NONE ∧
    recognizedKey EGL_CONTEXT_OPENGL_PROFILE_MASK_KHR = false ∧
    CreateContext exampleState 1 5 0
        (some (entriesThen [(EGL_CONTEXT_CLIENT_VERSION, 2)]
          (EGL_CONTEXT_OPENGL_PROFILE_MASK_KHR :: [1, EGL_NONE]))) ⟨EGL_SUCCESS, 8⟩
      = some (EGL_NO_CONTEXT, SetGlobalError exampleState EGL_BAD_ATTRIBUTE) ∧
    rejectedValue EGL_CONTEXT_OPENGL_ROBUST_ACCESS_EXT 2 = true ∧
    CreateContext exampleState 1 5 0
        (some (entriesThen [(EGL_CONTEXT_CLIENT_VERSION, 2)]
          (EGL_CONTEXT_OPENGL_ROBUST_ACCESS_EXT :: [2, EGL_NONE]))) ⟨EGL_SUCCESS, 8⟩
      = some (EGL_NO_CONTEXT, SetGlobalError exampleState EGL_BAD_ATTRIBUTE) ∧
    rejectedValue EGL_CONTEXT_OPENGL_RESET_NOTIFICATION_STRATEGY_EXT 0 = true ∧
    CreateContext exampleState 1 5 0
        (some (entriesThen [(EGL_CONTEXT_CLIENT_VERSION, 2)]
          (EGL_CONTEXT_OPENGL_RESET_NOTIFICATION_STRATEGY_EXT :: [0, EGL_NONE])))
        ⟨EGL_SUCCESS, 8⟩
      = some (EGL_NO_CONTEXT, SetGlobalError exampleState EGL_BAD_ATTRIBUTE) :=
  ⟨by decide, by decide, by decide,
    C14_CreateContext_rejects_bad_entry exampleState 1 5 0 ⟨EGL_SUCCESS, 8⟩
      [(EGL_CONTEXT_CLIENT_VERSION, 2)] EGL_CONTEXT_OPENGL_PROFILE_MASK_KHR [1, EGL_NONE]
      (by decide) (by decide) (Or.inl (by decide)),
    by decide,
    C14_CreateContext_rejects_bad_entry exampleState 1 5 0 ⟨EGL_SUCCESS, 8⟩
      [(EGL_CONTEXT_CLIENT_VERSION, 2)] EGL_CONTEXT_OPENGL_ROBUST_ACCESS_EXT [2, EGL_NONE]
      (by decide) (by decide) (Or.inr ⟨2, [EGL_NONE], rfl, by decide⟩),
    by decide,
    C14_CreateContext_rejects_bad_entry exampleState 1 5 0 ⟨EGL_SUCCESS, 8⟩
      [(EGL_CONTEXT_CLIENT_VERSION, 2)] EGL_CONTEXT_OPENGL_RESET_NOTIFICATION_STRATEGY_EXT
      [0, EGL_NONE] (by decide) (by decide) (Or.inr ⟨0, [EGL_NONE], rfl, by decide⟩)⟩

/-- C15 as stated fails: the client version is checked before the flags. The attribute list
`{EGL_CONTEXT_FLAGS_KHR, 2, EGL_NONE}` has only a recognized key and a flags value with a bit
outside the debug bit and the robust-access bit, and `CreateContext` returns `EGL_NO_CONTEXT`
with `EGL_BAD_CONFIG` (no version entry, so the version is 1), not `EGL_BAD_ATTRIBUTE`. -/
theorem C15_counterexample_flags_without_version :
    attribArray [(EGL_CONTEXT_FLAGS_KHR, 2)] [] = [EGL_CONTEXT_FLAGS_KHR, 2, EGL_NONE] ∧
    (∀ e ∈ [(EGL_CONTEXT_FLAGS_KHR, (2 : EGLint))], recognizedKey e.1 = true) ∧
    and32 (requestedFlags [(EGL_CONTEXT_FLAGS_KHR, 2)]) (not32 validContextFlags) ≠ 0 ∧
    CreateContext exampleState 1 5 0 (some [EGL_CONTEXT_FLAGS_KHR, 2, EGL_NONE])
        ⟨EGL_SUCCESS, 8⟩
      = some (EGL_NO_CONTEXT, SetGlobalError exampleState EGL_BAD_CONFIG) ∧
    (SetGlobalError exampleState EGL_BAD_CONFIG).error ≠ EGL_BAD_ATTRIBUTE :=
  ⟨rfl, by decide, by decide, rfl, by decide⟩

/-- C15 (amended): for every attribute list of accepted entries that requests client major
version 2 or 3 with minor version 0 and whose context-flags value has a bit set other than
the debug bit and the robust-access bit, `CreateContext` returns `EGL_NO_CONTEXT` with
`EGL_BAD_ATTRIBUTE`. -/
theorem C15_CreateContext_rejects_illegal_flags (s : State) (dpy config share_context : Handle)
    (backend : BackendResult) (es : List (EGLint × EGLint)) (tail : List EGLint)
    (hacc : ∀ e ∈ es, acceptedEntry e = true)
    (hmajor : requestedMajorVersion es = 2 ∨ requestedMajorVersion es = 3)
    (hminor : requestedMinorVersion es = 0)
    (hflags : and32 (requestedFlags es) (not32 validContextFlags) ≠ 0) :
    CreateContext s dpy config share_context (some (attribArray es tail)) backend
      = some (EGL_NO_CONTEXT, SetGlobalError s EGL_BAD_ATTRIBUTE) := by
  have hloop := attribLoop_accepted es tail initialAttribs hacc
  have ha0 : ContextAttribs.mk 1 0 0 false false = initialAttribs := rfl
  have hvf : or32 EGL_CONTEXT_OPENGL_DEBUG_BIT_KHR EGL_CONTEXT_OPENGL_ROBUST_ACCESS_BIT_KHR
      = validContextFlags := rfl
  have hv : ((requestedMajorVersion es != 2 && requestedMajorVersion es != 3)
      || requestedMinorVersion es != 0) = false := by
    rcases hmajor with h | h <;> simp [h, hminor]
  have hf : (and32 (requestedFlags es) (not32 validContextFlags) != 0) = true := by
    simpa using hflags
  unfold CreateContext
  simp only []
  rw [ha0, hloop, hvf]
  simp only [parsedAttribs_initial]
  simp [hv, hf]

/-- Witness for C15 (amended): client version 2 with the flags value `2`. -/
theorem C15_CreateContext_rejects_illegal_flags_witness :
    (∀ e ∈ [(EGL_CONTEXT_CLIENT_VERSION, (2 : EGLint)), (EGL_CONTEXT_FLAGS_KHR, 2)],
      acceptedEntry e = true) ∧
    (requestedMajorVersion [(EGL_CONTEXT_CLIENT_VERSION, 2), (EGL_CONTEXT_FLAGS_KHR, 2)] = 2 ∨
      requestedMajorVersion [(EGL_CONTEXT_CLIENT_VERSION, 2), (EGL_CONTEXT_FLAGS_KHR, 2)] = 3) ∧
    requestedMinorVersion [(EGL_CONTEXT_CLIENT_VERSION, 2), (EGL_CONTEXT_FLAGS_KHR, 2)] = 0 ∧
    and32 (requestedFlags [(EGL_CONTEXT_CLIENT_VERSION, 2), (EGL_CONTEXT_FLAGS_KHR, 2)])
      (not32 validContextFlags) ≠ 0 ∧
    CreateContext exampleState 1 5 0
        (some (attribArray [(EGL_CONTEXT_CLIENT_VERSION, 2), (EGL_CONTEXT_FLAGS_KHR, 2)] []))
        ⟨EGL_SUCCESS, 8⟩
      = some (EGL_NO_CONTEXT, SetGlobalError exampleState EGL_BAD_ATTRIBUTE) :=
  ⟨by decide, by decide, by decide, by decide,
    C15_CreateContext_rejects_illegal_flags exampleState 1 5 0 ⟨EGL_SUCCESS, 8⟩
      [(EGL_CONTEXT_CLIENT_VERSION, 2), (EGL_CONTEXT_FLAGS_KHR, 2)] []
      (by decide) (by decide) (by decide) (by decide)⟩

/-- C16: for every attribute list of accepted entries that requests client major version 2 or
3 with minor version 0 and only legal flag bits, if robust access is requested by the boolean
robust-access attribute or by the robust-access bit of the flags bitmask, `CreateContext`
returns `EGL_NO_CONTEXT` with `EGL_BAD_CONFIG`. The state after the call differs from the
state before only in the error register: no backend call is recorded. -/
theorem C16_CreateContext_rejects_robust_access (s : State) (dpy config share_context : Handle)
    (backend : BackendResult) (es : List (EGLint × EGLint)) (tail : List EGLint)
    (hacc : ∀ e ∈ es, acceptedEntry e = true)
    (hmajor : requestedMajorVersion es = 2 ∨ requestedMajorVersion es = 3)
    (hminor : requestedMinorVersion es = 0)
    (hflags : and32 (requestedFlags es) (not32 validContextFlags) = 0)
    (hrobust : requestedRobustAccess es = true ∨
      and32 (requestedFlags es) EGL_CONTEXT_OPENGL_ROBUST_ACCESS_BIT_KHR ≠ 0) :
    CreateContext s dpy config share_context (some (attribArray es tail)) backend
      = some (EGL_NO_CONTEXT, SetGlobalError s EGL_BAD_CONFIG) ∧
    (SetGlobalError s EGL_BAD_CONFIG).trace = s.trace := by
  refine ⟨?_, rfl⟩
  have hloop := attribLoop_accepted es tail initialAttribs hacc
  have ha0 : ContextAttribs.mk 1 0 0 false false = initialAttribs := rfl
  have hvf : or32 EGL_CONTEXT_OPENGL_DEBUG_BIT_KHR EGL_CONTEXT_OPENGL_ROBUST_ACCESS_BIT_KHR
      = validContextFlags := rfl
  have hv : ((requestedMajorVersion es != 2 && requestedMajorVersion es != 3)
      || requestedMinorVersion es != 0) = false := by
    rcases hmajor with h | h <;> simp [h, hminor]
  have hf : (and32 (requestedFlags es) (not32 validContextFlags) != 0) = false := by
    simp [hflags]
  have hr : (if and32 (requestedFlags es) EGL_CONTEXT_OPENGL_ROBUST_ACCESS_BIT_KHR > 0 then true
      else requestedRobustAccess es) = true := by
    rcases hrobust with h | h
    · simp [h]
    · have h0 := and32_robust_bit_nonneg (requestedFlags es)
      have hpos : and32 (requestedFlags es) EGL_CONTEXT_OPENGL_ROBUST_ACCESS_BIT_KHR > 0 :=
        lt_of_le_of_ne h0 (Ne.symm h)
      simp [hpos]
  unfold CreateContext
  simp only []
  rw [ha0, hloop, hvf]
  simp only [parsedAttribs_initial]
  simp only [hv, hf, hr]
  simp

/-- Witness for C16: client version 2 with the robust-access attribute `EGL_TRUE`, and client
version 3 with the robust-access bit in the flags. -/
theorem C16_CreateContext_rejects_robust_access_witness :
    (requestedRobustAccess
        [(EGL_CONTEXT_CLIENT_VERSION, 2), (EGL_CONTEXT_OPENGL_ROBUST_ACCESS_EXT, 1)] = true ∧
      CreateContext exampleState 1 5 0
          (some (attribArray
            [(EGL_CONTEXT_CLIENT_VERSION, 2), (EGL_CONTEXT_OPENGL_ROBUST_ACCESS_EXT, 1)] []))
          ⟨EGL_SUCCESS, 8⟩
        = some (EGL_NO_CONTEXT, SetGlobalError exampleState EGL_BAD_CONFIG)) ∧
    (and32 (requestedFlags [(EGL_CONTEXT_CLIENT_VERSION, 3), (EGL_CONTEXT_FLAGS_KHR, 4)])
        EGL_CONTEXT_OPENGL_ROBUST_ACCESS_BIT_KHR ≠ 0 ∧
      CreateContext exampleState 1 5 0
          (some (attribArray [(EGL_CONTEXT_CLIENT_VERSION, 3), (EGL_CONTEXT_FLAGS_KHR, 4)] []))
          ⟨EGL_SUCCESS, 8⟩
        = some (EGL_NO_CONTEXT, SetGlobalError exampleState EGL_BAD_CONFIG)) :=
  ⟨⟨by decide,
      (C16_CreateContext_rejects_robust_access exampleState 1 5 0 ⟨EGL_SUCCESS, 8⟩
        [(EGL_CONTEXT_CLIENT_VERSION, 2), (EGL_CONTEXT_OPENGL_ROBUST_ACCESS_EXT, 1)] []
        (by decide) (by decide) (by decide) (by decide) (Or.inl (by decide))).1⟩,
    ⟨by decide,
      (C16_CreateContext_rejects_robust_access exampleState 1 5 0 ⟨EGL_SUCCESS, 8⟩
        [(EGL_CONTEXT_CLIENT_VERSION, 3), (EGL_CONTEXT_FLAGS_KHR, 4)] []
        (by decide) (by decide) (by decide) (by decide) (Or.inr (by decide))).1⟩⟩

/-- C17: when a non-null share context is supplied and the attribute list is otherwise valid
(accepted entries, client major version 2 or 3 with minor version 0, only legal flag bits, no
robust access), `CreateContext` fails with `EGL_BAD_MATCH` if the reset-notification setting
of the share context differs from the requested one; with `EGL_BAD_CONTEXT` if the settings
agree and the client version of the share context differs from the requested major version;
and with `EGL_BAD_MATCH` if both agree, the display is non-null and the renderer of the share
context differs from the renderer of the display. -/
theorem C17_CreateContext_share_compatibility (s : State) (dpy config share_context : Handle)
    (backend : BackendResult) (es : List (EGLint × EGLint)) (tail : List EGLint)
    (hshare : share_context ≠ EGL_NO_CONTEXT)
    (hacc : ∀ e ∈ es, acceptedEntry e = true)
    (hmajor : requestedMajorVersion es = 2 ∨ requestedMajorVersion es = 3)
    (hminor : requestedMinorVersion es = 0)
    (hflags : and32 (requestedFlags es) (not32 validContextFlags) = 0)
    (hbit : and32 (requestedFlags es) EGL_CONTEXT_OPENGL_ROBUST_ACCESS_BIT_KHR = 0)
    (hrobust : requestedRobustAccess es = false) :
    ((s.contexts share_context).resetNotification ≠ parsedResetNotification es →
      CreateContext s dpy config share_context (some (attribArray es tail)) backend
        = some (EGL_NO_CONTEXT, SetGlobalError s EGL_BAD_MATCH)) ∧
    ((s.contexts share_context).resetNotification = parsedResetNotification es →
      (s.contexts share_context).clientVersion ≠ requestedMajorVersion es →
      CreateContext s dpy config share_context (some (attribArray es tail)) backend
        = some (EGL_NO_CONTEXT, SetGlobalError s EGL_BAD_CONTEXT)) ∧
    ((s.contexts share_context).resetNotification = parsedResetNotification es →
      (s.contexts share_context).clientVersion = requestedMajorVersion es →
      dpy ≠ EGL_NO_DISPLAY →
      (s.contexts share_context).renderer ≠ getRenderer s dpy →
      CreateContext s dpy config share_context (some (attribArray es tail)) backend
        = some (EGL_NO_CONTEXT, SetGlobalError s EGL_BAD_MATCH)) := by
  have h := CreateContext_valid_attribs s dpy config share_context backend es tail hacc hmajor
    hminor hflags hbit hrobust
  have hs : (share_context != 0) = true := by simpa using hshare
  rw [hs] at h
  simp only [if_true] at h
  refine ⟨?_, ?_, ?_⟩
  · intro h1
    rw [h]
    simp [h1]
  · intro h1 h2
    rw [h]
    simp [h1, h2]
  · intro h1 h2 h3 h4
    have hd : (dpy == 0) = false := by simpa using h3
    rw [h]
    simp [h1, h2, hd, h4]

/-- Witness for C17: sharing with context `3` (client version 2, no reset notification,
renderer `9`): a list that requests lose-context-on-reset fails with `EGL_BAD_MATCH`, a list
that requests client version 3 fails with `EGL_BAD_CONTEXT`, and creation on display `2`,
whose renderer is `10`, fails with `EGL_BAD_MATCH`. -/
theorem C17_CreateContext_share_compatibility_witness :
    ((twoDisplayState.contexts 3).resetNotification ≠
        parsedResetNotification [(EGL_CONTEXT_CLIENT_VERSION, 2),
          (EGL_CONTEXT_OPENGL_RESET_NOTIFICATION_STRATEGY_EXT, EGL_LOSE_CONTEXT_ON_RESET_EXT)] ∧
      CreateContext twoDisplayState 1 5 3
          (some (attribArray [(EGL_CONTEXT_CLIENT_VERSION, 2),
            (EGL_CONTEXT_OPENGL_RESET_NOTIFICATION_STRATEGY_EXT, EGL_LOSE_CONTEXT_ON_RESET_EXT)]
            [])) ⟨EGL_SUCCESS, 8⟩
        = some (EGL_NO_CONTEXT, SetGlobalError twoDisplayState EGL_BAD_MATCH)) ∧
    ((twoDisplayState.contexts 3).clientVersion ≠
        requestedMajorVersion [(EGL_CONTEXT_CLIENT_VERSION, 3)] ∧
      CreateContext twoDisplayState 1 5 3
          (some (attribArray [(EGL_CONTEXT_CLIENT_VERSION, 3)] [])) ⟨EGL_SUCCESS, 8⟩
        = some (EGL_NO_CONTEXT, SetGlobalError twoDisplayState EGL_BAD_CONTEXT)) ∧
    ((twoDisplayState.contexts 3).renderer ≠ getRenderer twoDisplayState 2 ∧
      CreateContext twoDisplayState 2 5 3
          (some (attribArray [(EGL_CONTEXT_CLIENT_VERSION, 2)] [])) ⟨EGL_SUCCESS, 8⟩
        = some (EGL_NO_CONTEXT, SetGlobalError twoDisplayState EGL_BAD_MATCH)) :=
  ⟨⟨by decide,
      (C17_CreateContext_share_compatibility twoDisplayState 1 5 3 ⟨EGL_SUCCESS, 8⟩
        [(EGL_CONTEXT_CLIENT_VERSION, 2),
          (EGL_CONTEXT_OPENGL_RESET_NOTIFICATION_STRATEGY_EXT, EGL_LOSE_CONTEXT_ON_RESET_EXT)] []
        (by decide) (by decide) (by decide) (by decide) (by decide) (by decide)
        (by decide)).1 (by decide)⟩,
    ⟨by decide,
      (C17_CreateContext_share_compatibility twoDisplayState 1 5 3 ⟨EGL_SUCCESS, 8⟩
        [(EGL_CONTEXT_CLIENT_VERSION, 3)] []
        (by decide) (by decide) (by decide) (by decide) (by decide) (by decide)
        (by decide)).2.1 (by decide) (by decide)⟩,
    ⟨by decide,
      (C17_CreateContext_share_compatibility twoDisplayState 2 5 3 ⟨EGL_SUCCESS, 8⟩
        [(EGL_CONTEXT_CLIENT_VERSION, 2)] []
        (by decide) (by decide) (by decide) (by decide) (by decide) (by decide)
        (by decide)).2.2 (by decide) (by decide) (by decide) (by decide)⟩⟩

/-! ## The claims on `QueryString` and on texture binding -/

/-- C18: `QueryString` on the null display with the name `EGL_EXTENSIONS` bypasses the display
validation: it returns the extension string obtained from `Display::getExtensionString` (a
string, not the null pointer) and sets the error register to `EGL_SUCCESS`; on the null
display with any other name it returns the null pointer with `EGL_BAD_DISPLAY`. -/
theorem C18_QueryString_null_display (strs : DisplayStrings) (s : State) (name : EGLint)
    (hname : name ≠ EGL_EXTENSIONS) :
    QueryString strs s EGL_NO_DISPLAY EGL_EXTENSIONS
      = (some (strs.extensionString EGL_NO_DISPLAY), SetGlobalError s EGL_SUCCESS) ∧
    QueryString strs s EGL_NO_DISPLAY name = (none, SetGlobalError s EGL_BAD_DISPLAY) := by
  refine ⟨rfl, ?_⟩
  have hn : (name == EGL_EXTENSIONS) = false := by simpa using hname
  have hv : ValidateDisplay s EGL_NO_DISPLAY = (false, SetGlobalError s EGL_BAD_DISPLAY) := rfl
  unfold QueryString
  simp [hn, hv]

/-- Witness for C18: the name `EGL_VENDOR`. -/
theorem C18_QueryString_null_display_witness :
    EGL_VENDOR ≠ EGL_EXTENSIONS ∧
    QueryString exampleStrings exampleState EGL_NO_DISPLAY EGL_EXTENSIONS
      = (some (exampleStrings.extensionString EGL_NO_DISPLAY),
          SetGlobalError exampleState EGL_SUCCESS) ∧
    QueryString exampleStrings exampleState EGL_NO_DISPLAY EGL_VENDOR
      = (none, SetGlobalError exampleState EGL_BAD_DISPLAY) :=
  ⟨by decide, C18_QueryString_null_display exampleStrings exampleState EGL_VENDOR (by decide)⟩

/-- C19 as stated fails: when no context is current, `BindTexImage` returns `EGL_TRUE` without
binding anything. In `objectState`, which is `Unbound`, surface `2` is a valid offscreen
surface with texture format `EGL_TEXTURE_RGB`; `BindTexImage(1, 2, EGL_BACK_BUFFER)` returns
`EGL_TRUE`, and the immediately following `BindTexImage(1, 2, EGL_BACK_BUFFER)` returns
`EGL_TRUE` with `EGL_SUCCESS` again, not `EGL_FALSE` with `EGL_BAD_ACCESS`. -/
theorem C19_counterexample_no_current_context :
    objectState.context = EGL_NO_CONTEXT ∧
    (ValidateSurface objectState 1 2).1 = true ∧
    (objectState.surfaces 2).windowHandle = 0 ∧
    (objectState.surfaces 2).textureFormat ≠ EGL_NO_TEXTURE ∧
    BindTexImage objectState 1 2 EGL_BACK_BUFFER
      = some (EGL_TRUE, SetGlobalError objectState EGL_SUCCESS) ∧
    BindTexImage (SetGlobalError objectState EGL_SUCCESS) 1 2 EGL_BACK_BUFFER
      = some (EGL_TRUE, SetGlobalError (SetGlobalError objectState EGL_SUCCESS) EGL_SUCCESS) ∧
    EGL_TRUE ≠ EGL_FALSE :=
  ⟨rfl, by decide, by decide, by decide, rfl, rfl, by decide⟩

/-- C19 (amended): for every surface and every state in which a context is current, if
`BindTexImage(dpy, surface, EGL_BACK_BUFFER)` returns `EGL_TRUE` then an immediately following
`BindTexImage` on the same surface returns `EGL_FALSE` with `EGL_BAD_ACCESS`. (That the first
call returns `EGL_TRUE` makes the surface a valid non-window surface with a texture format
other than no-texture.) -/
theorem C19_BindTexImage_twice (s s1 : State) (dpy surface : Handle)
    (hctx : s.context ≠ EGL_NO_CONTEXT)
    (hfirst : BindTexImage s dpy surface EGL_BACK_BUFFER = some (EGL_TRUE, s1)) :
    BindTexImage s1 dpy surface EGL_BACK_BUFFER
      = some (EGL_FALSE, SetGlobalError s1 EGL_BAD_ACCESS) := by
  have hft : EGL_FALSE ≠ EGL_TRUE := by decide
  have hc : (GetGlobalContext s != 0) = true := by simpa [GetGlobalContext] using hctx
  unfold BindTexImage at hfirst
  simp only [] at hfirst
  split_ifs at hfirst with h1 h2 h3 h4 h5 h6 h7 h8
  all_goals simp only [Option.some.injEq, Prod.mk.injEq, hft, false_and] at hfirst
  · have hv : (ValidateSurface s dpy surface).1 = true := by simpa using h1
    have hs := ValidateSurface_true s dpy surface hv
    rw [hs] at h3 h7 hfirst h6
    obtain ⟨hd, hi, hsurf⟩ := ValidateSurface_pass s dpy surface hv
    have hs1 := hfirst.2
    have hv1 : ValidateSurface s1 dpy surface = (true, s1) := by
      apply ValidateSurface_ok s1 dpy surface hd
      · rw [← hs1]; exact hi
      · rw [← hs1]; exact hsurf
    have hwin : (surface == EGL_NO_SURFACE || (s1.surfaces surface).windowHandle != 0)
        = false := by
      rw [← hs1]
      simpa [SetGlobalError, surfaceBindTexImage, logEvent, setSurface] using h3
    have hbound : ((s1.surfaces surface).boundTexture != 0) = true := by
      rw [← hs1]
      simpa [SetGlobalError, surfaceBindTexImage, logEvent, setSurface] using h7
    unfold BindTexImage
    simp [hv1, hwin, hbound]
  · have hv : (ValidateSurface s dpy surface).1 = true := by simpa using h1
    rw [ValidateSurface_true s dpy surface hv] at h6
    exact absurd hc (by simpa using h6)

/-- Witness for C19 (amended): in `boundState`, where context `3` is current, the surface
`2` is bound to the texture `6` by the first call. -/
theorem C19_BindTexImage_twice_witness :
    boundState.context ≠ EGL_NO_CONTEXT ∧
    BindTexImage boundState 1 2 EGL_BACK_BUFFER
      = some (EGL_TRUE,
          SetGlobalError (surfaceBindTexImage boundState 2 6 EGL_BACK_BUFFER) EGL_SUCCESS) ∧
    BindTexImage
        (SetGlobalError (surfaceBindTexImage boundState 2 6 EGL_BACK_BUFFER) EGL_SUCCESS)
        1 2 EGL_BACK_BUFFER
      = some (EGL_FALSE,
          SetGlobalError
            (SetGlobalError (surfaceBindTexImage boundState 2 6 EGL_BACK_BUFFER) EGL_SUCCESS)
            EGL_BAD_ACCESS) :=
  ⟨by decide, rfl,
    C19_BindTexImage_twice boundState
      (SetGlobalError (surfaceBindTexImage boundState 2 6 EGL_BACK_BUFFER) EGL_SUCCESS) 1 2
      (by decide) rfl⟩

/-- C20 as stated fails: the checks on the kind of surface come before the look at the bound
texture. In `noTextureState` the valid surface `2` has no bound texture and the texture
format `EGL_NO_TEXTURE`, and `ReleaseTexImage(1, 2, EGL_BACK_BUFFER)` returns `EGL_FALSE` with
`EGL_BAD_MATCH`; in `windowState` the valid surface `2` has no bound texture and is backed by
a window, and the call returns `EGL_FALSE` with `EGL_BAD_SURFACE`. -/
theorem C20_counterexample_surface_without_texture_format :
    ((ValidateSurface noTextureState 1 2).1 = true ∧
      (noTextureState.surfaces 2).boundTexture = 0 ∧
      ReleaseTexImage noTextureState 1 2 EGL_BACK_BUFFER
        = (EGL_FALSE, SetGlobalError noTextureState EGL_BAD_MATCH)) ∧
    ((ValidateSurface windowState 1 2).1 = true ∧
      (windowState.surfaces 2).boundTexture = 0 ∧
      ReleaseTexImage windowState 1 2 EGL_BACK_BUFFER
        = (EGL_FALSE, SetGlobalError windowState EGL_BAD_SURFACE)) ∧
    EGL_FALSE ≠ EGL_TRUE :=
  ⟨⟨by decide, by decide, rfl⟩, ⟨by decide, by decide, rfl⟩, by decide⟩

/-- C20 (amended): for every valid non-window surface with a texture format other than
no-texture that has no bound texture, `ReleaseTexImage(dpy, surface, EGL_BACK_BUFFER)` is a
no-op that reports success: it returns `EGL_TRUE` and the state after the call is the state
before with the error register set to `EGL_SUCCESS`; the release operation of the surface is
not called, and the surfaces and the binding are unchanged. -/
theorem C20_ReleaseTexImage_nothing_bound (s : State) (dpy surface : Handle)
    (hdpy : dpy ≠ EGL_NO_DISPLAY) (hinit : isInitialized s dpy = true)
    (hvalid : isValidSurface s dpy surface = true)
    (hsurf : surface ≠ EGL_NO_SURFACE)
    (hwin : (s.surfaces surface).windowHandle = 0)
    (hfmt : (s.surfaces surface).textureFormat ≠ EGL_NO_TEXTURE)
    (hbound : (s.surfaces surface).boundTexture = 0) :
    ReleaseTexImage s dpy surface EGL_BACK_BUFFER = (EGL_TRUE, SetGlobalError s EGL_SUCCESS) ∧
    (ReleaseTexImage s dpy surface EGL_BACK_BUFFER).2.error = EGL_SUCCESS ∧
    (ReleaseTexImage s dpy surface EGL_BACK_BUFFER).2.trace = s.trace ∧
    (ReleaseTexImage s dpy surface EGL_BACK_BUFFER).2.surfaces = s.surfaces ∧
    (ReleaseTexImage s dpy surface EGL_BACK_BUFFER).2.display = s.display ∧
    (ReleaseTexImage s dpy surface EGL_BACK_BUFFER).2.drawSurface = s.drawSurface ∧
    (ReleaseTexImage s dpy surface EGL_BACK_BUFFER).2.readSurface = s.readSurface ∧
    (ReleaseTexImage s dpy surface EGL_BACK_BUFFER).2.context = s.context := by
  have hv := ValidateSurface_ok s dpy surface hdpy hinit hvalid
  have hs0 : (surface == EGL_NO_SURFACE) = false := by simpa using hsurf
  have hf : ((s.surfaces surface).textureFormat == EGL_NO_TEXTURE) = false := by
    simpa using hfmt
  have h : ReleaseTexImage s dpy surface EGL_BACK_BUFFER
      = (EGL_TRUE, SetGlobalError s EGL_SUCCESS) := by
    unfold ReleaseTexImage
    simp [hv, hs0, hwin, hf, hbound]
  rw [h]
  exact ⟨rfl, rfl, rfl, rfl, rfl, rfl, rfl, rfl⟩

/-- Witness for C20 (amended): the surface `2` of `objectState`. -/
theorem C20_ReleaseTexImage_nothing_bound_witness :
    (1 : Handle) ≠ EGL_NO_DISPLAY ∧ isInitialized objectState 1 = true ∧
    isValidSurface objectState 1 2 = true ∧ (2 : Handle) ≠ EGL_NO_SURFACE ∧
    (objectState.surfaces 2).windowHandle = 0 ∧
    (objectState.surfaces 2).textureFormat ≠ EGL_NO_TEXTURE ∧
    (objectState.surfaces 2).boundTexture = 0 ∧
    ReleaseTexImage objectState 1 2 EGL_BACK_BUFFER
      = (EGL_TRUE, SetGlobalError objectState EGL_SUCCESS) :=
  ⟨by decide, by decide, by decide, by decide, by decide, by decide, by decide,
    (C20_ReleaseTexImage_nothing_bound objectState 1 2 (by decide) (by decide) (by decide)
      (by decide) (by decide) (by decide) (by decide)).1⟩

/-! ## The claims on `QuerySurface` -/

/-- After the two checks on the surface have passed, `QuerySurface` is at its `switch`. -/
theorem QuerySurface_valid (s : State) (dpy surface : Handle)
    (hdpy : dpy ≠ EGL_NO_DISPLAY) (hinit : isInitialized s dpy = true)
    (hvalid : isValidSurface s dpy surface = true) (hsurf : surface ≠ EGL_NO_SURFACE) :
    (!(ValidateSurface s dpy surface).1) = false ∧ (ValidateSurface s dpy surface).2 = s ∧
    (surface == EGL_NO_SURFACE) = false := by
  have hv := ValidateSurface_ok s dpy surface hdpy hinit hvalid
  refine ⟨by simp [hv], by simp [hv], by simpa using hsurf⟩

/-- C21 (defect in the code): `QuerySurface` does not fail closed on the attributes it does
not implement. For the valid surface `2` of `queryState` and each of `EGL_VG_ALPHA_FORMAT`,
`EGL_VG_COLORSPACE`, `EGL_HORIZONTAL_RESOLUTION` and `EGL_VERTICAL_RESOLUTION`, the call
returns `EGL_TRUE`, leaves the cell behind `value` at the `77` it held before, and sets the
error register to `EGL_SUCCESS`. -/
theorem C21_QuerySurface_unimplemented_reports_success :
    (ValidateSurface queryState 1 2).1 = true ∧
    QuerySurface queryState 1 2 EGL_VG_ALPHA_FORMAT (some 77)
      = some (EGL_TRUE, some 77, SetGlobalError (UNIMPLEMENTED queryState 398) EGL_SUCCESS) ∧
    QuerySurface queryState 1 2 EGL_VG_COLORSPACE (some 77)
      = some (EGL_TRUE, some 77, SetGlobalError (UNIMPLEMENTED queryState 401) EGL_SUCCESS) ∧
    QuerySurface queryState 1 2 EGL_HORIZONTAL_RESOLUTION (some 77)
      = some (EGL_TRUE, some 77, SetGlobalError (UNIMPLEMENTED queryState 410) EGL_SUCCESS) ∧
    QuerySurface queryState 1 2 EGL_VERTICAL_RESOLUTION (some 77)
      = some (EGL_TRUE, some 77, SetGlobalError (UNIMPLEMENTED queryState 440) EGL_SUCCESS) ∧
    (∀ line : Nat, (SetGlobalError (UNIMPLEMENTED queryState line) EGL_SUCCESS).error
      = EGL_SUCCESS) :=
  ⟨by decide, rfl, rfl, rfl, rfl, fun _ => rfl⟩

/-- C22: for every valid non-null surface of a non-null initialized display and every cell
behind `value`, `QuerySurface` with one of the ten table keys stores the corresponding field
of the surface in the cell and returns `EGL_TRUE` with `EGL_SUCCESS`; with a key that is the
label of no `case` it returns `EGL_FALSE` with `EGL_BAD_ATTRIBUTE` and leaves the cell as it
was. -/
theorem C22_QuerySurface_table (s : State) (dpy surface : Handle) (v : EGLint)
    (hdpy : dpy ≠ EGL_NO_DISPLAY) (hinit : isInitialized s dpy = true)
    (hvalid : isValidSurface s dpy surface = true) (hsurf : surface ≠ EGL_NO_SURFACE) :
    QuerySurface s dpy surface EGL_CONFIG_ID (some v)
      = some (EGL_TRUE, some (s.surfaces surface).configID, SetGlobalError s EGL_SUCCESS) ∧
    QuerySurface s dpy surface EGL_WIDTH (some v)
      = some (EGL_TRUE, some (s.surfaces surface).width, SetGlobalError s EGL_SUCCESS) ∧
    QuerySurface s dpy surface EGL_HEIGHT (some v)
      = some (EGL_TRUE, some (s.surfaces surface).height, SetGlobalError s EGL_SUCCESS) ∧
    QuerySurface s dpy surface EGL_PIXEL_ASPECT_RATIO (some v)
      = some (EGL_TRUE, some (s.surfaces surface).pixelAspectRatio,
          SetGlobalError s EGL_SUCCESS) ∧
    QuerySurface s dpy surface EGL_RENDER_BUFFER (some v)
      = some (EGL_TRUE, some (s.surfaces surface).renderBuffer, SetGlobalError s EGL_SUCCESS) ∧
    QuerySurface s dpy surface EGL_SWAP_BEHAVIOR (some v)
      = some (EGL_TRUE, some (s.surfaces surface).swapBehavior, SetGlobalError s EGL_SUCCESS) ∧
    QuerySurface s dpy surface EGL_TEXTURE_FORMAT (some v)
      = some (EGL_TRUE, some (s.surfaces surface).textureFormat, SetGlobalError s EGL_SUCCESS) ∧
    QuerySurface s dpy surface EGL_TEXTURE_TARGET (some v)
      = some (EGL_TRUE, some (s.surfaces surface).textureTarget, SetGlobalError s EGL_SUCCESS) ∧
    QuerySurface s dpy surface EGL_FIXED_SIZE_ANGLE (some v)
      = some (EGL_TRUE, some (s.surfaces surface).fixedSize, SetGlobalError s EGL_SUCCESS) ∧
    QuerySurface s dpy surface EGL_POST_SUB_BUFFER_SUPPORTED_NV (some v)
      = some (EGL_TRUE, some (s.surfaces surface).postSubBufferSupported,
          SetGlobalError s EGL_SUCCESS) ∧
    (∀ attrib : EGLint, attrib ∉ querySurfaceCases →
      QuerySurface s dpy surface attrib (some v)
        = some (EGL_FALSE, some v, SetGlobalError s EGL_BAD_ATTRIBUTE)) := by
  obtain ⟨h1, h2, h3⟩ := QuerySurface_valid s dpy surface hdpy hinit hvalid hsurf
  refine ⟨?_, ?_, ?_, ?_, ?_, ?_, ?_, ?_, ?_, ?_, ?_⟩
  case refine_11 =>
    intro attrib hattrib
    simp only [querySurfaceCases, List.mem_cons, List.mem_singleton, not_or, List.mem_nil_iff,
      or_false] at hattrib
    obtain ⟨a1, a2, a3, a4, a5, a6, a7, a8, a9, a10, a11, a12, a13, a14, a15, a16, a17, a18⟩ :=
      hattrib
    unfold QuerySurface
    simp only [h1, h2, h3]
    simp [a1, a2, a3, a4, a5, a6, a7, a8, a9, a10, a11, a12, a13, a14, a15, a16, a17, a18]
  all_goals
    unfold QuerySurface
    simp only [h1, h2, h3]
    rfl

/-- Witness for C22: the surface `2` of `queryState`, whose width is `640`, and the key `5`,
which is the label of no `case`. -/
theorem C22_QuerySurface_table_witness :
    (1 : Handle) ≠ EGL_NO_DISPLAY ∧ isInitialized queryState 1 = true ∧
    isValidSurface queryState 1 2 = true ∧ (2 : Handle) ≠ EGL_NO_SURFACE ∧
    QuerySurface queryState 1 2 EGL_WIDTH (some 77)
      = some (EGL_TRUE, some 640, SetGlobalError queryState EGL_SUCCESS) ∧
    (5 : EGLint) ∉ querySurfaceCases ∧
    QuerySurface queryState 1 2 5 (some 77)
      = some (EGL_FALSE, some 77, SetGlobalError queryState EGL_BAD_ATTRIBUTE) :=
  have h := C22_QuerySurface_table queryState 1 2 77 (by decide) (by decide) (by decide)
    (by decide)
  ⟨by decide, by decide, by decide, by decide, h.2.1, by decide,
    h.2.2.2.2.2.2.2.2.2.2 5 (by decide)⟩

/-! ## The claims on the order of the checks -/

/-- C23 as stated fails: the client version is judged only after the whole list has been
read. A list whose first entry is client version 1 fails with `EGL_BAD_CONFIG` when nothing
follows; followed by an unrecognized key it fails with `EGL_BAD_ATTRIBUTE`; followed by a
second version entry with the value 2 it succeeds with the handle of the backend. -/
theorem C23_counterexample_version_entry_first :
    (CreateContext exampleState 1 5 0 (some [EGL_CONTEXT_CLIENT_VERSION, 1, EGL_NONE])
        ⟨EGL_SUCCESS, 8⟩).map (fun r => (r.1, r.2.error))
      = some (EGL_NO_CONTEXT, EGL_BAD_CONFIG) ∧
    recognizedKey 39321 = false ∧
    (CreateContext exampleState 1 5 0
        (some [EGL_CONTEXT_CLIENT_VERSION, 1, 39321, 0, EGL_NONE])
        ⟨EGL_SUCCESS, 8⟩).map (fun r => (r.1, r.2.error))
      = some (EGL_NO_CONTEXT, EGL_BAD_ATTRIBUTE) ∧
    (CreateContext exampleState 1 5 0
        (some [EGL_CONTEXT_CLIENT_VERSION, 1, EGL_CONTEXT_CLIENT_VERSION, 2, EGL_NONE])
        ⟨EGL_SUCCESS, 8⟩).map (fun r => (r.1, r.2.error))
      = some (8, EGL_SUCCESS) ∧
    EGL_BAD_ATTRIBUTE ≠ EGL_BAD_CONFIG := by
  decide

/-- C23 (amended): the attribute loop of `CreateContext` short-circuits on the first entry
with a key that is not recognized or with a rejected value. When every entry before it is
accepted, the call returns `EGL_NO_CONTEXT` with `EGL_BAD_ATTRIBUTE`, and the result is the
same whatever follows the entry. -/
theorem C23_CreateContext_first_rejected_entry (s : State) (dpy config share_context : Handle)
    (backend : BackendResult) (pre : List (EGLint × EGLint)) (key value : EGLint)
    (rest rest2 : List EGLint)
    (hpre : ∀ e ∈ pre, acceptedEntry e = true) (hkey : key ≠ EGL_NONE)
    (hbad : recognizedKey key = false ∨ rejectedValue key value = true) :
    CreateContext s dpy config share_context (some (entriesThen pre (key :: value :: rest)))
        backend
      = some (EGL_NO_CONTEXT, SetGlobalError s EGL_BAD_ATTRIBUTE) ∧
    CreateContext s dpy config share_context (some (entriesThen pre (key :: value :: rest)))
        backend
      = CreateContext s dpy config share_context
          (some (entriesThen pre (key :: value :: rest2))) backend := by
  have hne : ∀ e ∈ pre, e.1 ≠ EGL_NONE := by
    intro e he
    have hacc := hpre e he
    simp only [acceptedEntry, Bool.and_eq_true] at hacc
    have := recognizedKey_ne_none e.1 hacc.1
    simpa using this
  have hgen : ∀ r : List EGLint,
      CreateContext s dpy config share_context (some (entriesThen pre (key :: value :: r)))
          backend
        = some (EGL_NO_CONTEXT, SetGlobalError s EGL_BAD_ATTRIBUTE) := by
    intro r
    have hloop := attribLoop_rejected pre key (value :: r) (ContextAttribs.mk 1 0 0 false false)
      hne hkey (by
        rcases hbad with h | h
        · exact Or.inl h
        · exact Or.inr ⟨value, r, rfl, h⟩)
    unfold CreateContext
    simp only []
    rw [hloop]
  exact ⟨hgen rest, by rw [hgen rest, hgen rest2]⟩

/-- Witness for C23 (amended): after a version entry, the robust-access value `2` is
rejected, whatever follows. -/
theorem C23_CreateContext_first_rejected_entry_witness :
    (∀ e ∈ [(EGL_CONTEXT_CLIENT_VERSION, (1 : EGLint))], acceptedEntry e = true) ∧
    EGL_CONTEXT_OPENGL_ROBUST_ACCESS_EXT ≠ EGL_NONE ∧
    rejectedValue EGL_CONTEXT_OPENGL_ROBUST_ACCESS_EXT 2 = true ∧
    CreateContext exampleState 1 5 0
        (some (entriesThen [(EGL_CONTEXT_CLIENT_VERSION, 1)]
          (EGL_CONTEXT_OPENGL_ROBUST_ACCESS_EXT :: 2 :: [EGL_NONE]))) ⟨EGL_SUCCESS, 8⟩
      = some (EGL_NO_CONTEXT, SetGlobalError exampleState EGL_BAD_ATTRIBUTE) ∧
    CreateContext exampleState 1 5 0
        (some (entriesThen [(EGL_CONTEXT_CLIENT_VERSION, 1)]
          (EGL_CONTEXT_OPENGL_ROBUST_ACCESS_EXT :: 2 :: [EGL_NONE]))) ⟨EGL_SUCCESS, 8⟩
      = CreateContext exampleState 1 5 0
          (some (entriesThen [(EGL_CONTEXT_CLIENT_VERSION, 1)]
            (EGL_CONTEXT_OPENGL_ROBUST_ACCESS_EXT :: 2 ::
              [EGL_CONTEXT_CLIENT_VERSION, 2, EGL_NONE]))) ⟨EGL_SUCCESS, 8⟩ :=
  ⟨by decide, by decide, by decide,
    C23_CreateContext_first_rejected_entry exampleState 1 5 0 ⟨EGL_SUCCESS, 8⟩
      [(EGL_CONTEXT_CLIENT_VERSION, 1)] EGL_CONTEXT_OPENGL_ROBUST_ACCESS_EXT 2 [EGL_NONE]
      [EGL_CONTEXT_CLIENT_VERSION, 2, EGL_NONE] (by decide) (by decide) (Or.inr (by decide))⟩

/-- C24 (defect in the code): the value no-reset-notification does not clear the
reset-notification flag. For the list whose strategy entries are lose-context-on-reset and
then no-reset-notification, the last strategy value is no-reset-notification, but the flag of
the request is `true`: the backend is called with `notifyResets = true`, and sharing with
context `3`, whose reset notification is disabled, fails with `EGL_BAD_MATCH`. -/
theorem C24_reset_notification_stays_set :
    lastValue EGL_CONTEXT_OPENGL_RESET_NOTIFICATION_STRATEGY_EXT EGL_NO_RESET_NOTIFICATION_EXT
        [(EGL_CONTEXT_OPENGL_RESET_NOTIFICATION_STRATEGY_EXT, EGL_LOSE_CONTEXT_ON_RESET_EXT),
          (EGL_CONTEXT_OPENGL_RESET_NOTIFICATION_STRATEGY_EXT, EGL_NO_RESET_NOTIFICATION_EXT),
          (EGL_CONTEXT_CLIENT_VERSION, 2)]
      = EGL_NO_RESET_NOTIFICATION_EXT ∧
    (CreateContext objectState 1 5 0
        (some [EGL_CONTEXT_OPENGL_RESET_NOTIFICATION_STRATEGY_EXT, EGL_LOSE_CONTEXT_ON_RESET_EXT,
          EGL_CONTEXT_OPENGL_RESET_NOTIFICATION_STRATEGY_EXT, EGL_NO_RESET_NOTIFICATION_EXT,
          EGL_CONTEXT_CLIENT_VERSION, 2, EGL_NONE])
        ⟨EGL_SUCCESS, 8⟩).map (fun r => (r.1, r.2.trace))
      = some (8, [Event.createContext 1 5 2 0 true false]) ∧
    (objectState.contexts 3).resetNotification = false ∧
    (objectState.contexts 3).clientVersion = 2 ∧
    (objectState.contexts 3).renderer = getRenderer objectState 1 ∧
    (CreateContext objectState 1 5 3
        (some [EGL_CONTEXT_OPENGL_RESET_NOTIFICATION_STRATEGY_EXT, EGL_LOSE_CONTEXT_ON_RESET_EXT,
          EGL_CONTEXT_OPENGL_RESET_NOTIFICATION_STRATEGY_EXT, EGL_NO_RESET_NOTIFICATION_EXT,
          EGL_CONTEXT_CLIENT_VERSION, 2, EGL_NONE])
        ⟨EGL_SUCCESS, 8⟩).map (fun r => (r.1, r.2.error, r.2.trace))
      = some (EGL_NO_CONTEXT, EGL_BAD_MATCH, []) := by
  decide

/-- C25: in `CreateContext` share compatibility is decided before config validity. For a
valid attribute list and a config that is not valid for the non-null initialized display, an
incompatible share context gives the share-compatibility error (`EGL_BAD_MATCH` for the reset
notification, `EGL_BAD_CONTEXT` for the client version, `EGL_BAD_MATCH` for the renderer),
and `EGL_BAD_CONFIG` from the config validation is reported when the share context is absent
or compatible. -/
theorem C25_CreateContext_share_before_config (s : State) (dpy config share_context : Handle)
    (backend : BackendResult) (es : List (EGLint × EGLint)) (tail : List EGLint)
    (hacc : ∀ e ∈ es, acceptedEntry e = true)
    (hmajor : requestedMajorVersion es = 2 ∨ requestedMajorVersion es = 3)
    (hminor : requestedMinorVersion es = 0)
    (hflags : and32 (requestedFlags es) (not32 validContextFlags) = 0)
    (hbit : and32 (requestedFlags es) EGL_CONTEXT_OPENGL_ROBUST_ACCESS_BIT_KHR = 0)
    (hrobust : requestedRobustAccess es = false)
    (hdpy : dpy ≠ EGL_NO_DISPLAY) (hinit : isInitialized s dpy = true)
    (hcfg : isValidConfig s dpy config = false) :
    (share_context ≠ EGL_NO_CONTEXT →
      (s.contexts share_context).resetNotification ≠ parsedResetNotification es →
      CreateContext s dpy config share_context (some (attribArray es tail)) backend
        = some (EGL_NO_CONTEXT, SetGlobalError s EGL_BAD_MATCH)) ∧
    (share_context ≠ EGL_NO_CONTEXT →
      (s.contexts share_context).resetNotification = parsedResetNotification es →
      (s.contexts share_context).clientVersion ≠ requestedMajorVersion es →
      CreateContext s dpy config share_context (some (attribArray es tail)) backend
        = some (EGL_NO_CONTEXT, SetGlobalError s EGL_BAD_CONTEXT)) ∧
    (share_context ≠ EGL_NO_CONTEXT →
      (s.contexts share_context).resetNotification = parsedResetNotification es →
      (s.contexts share_context).clientVersion = requestedMajorVersion es →
      (s.contexts share_context).renderer ≠ getRenderer s dpy →
      CreateContext s dpy config share_context (some (attribArray es tail)) backend
        = some (EGL_NO_CONTEXT, SetGlobalError s EGL_BAD_MATCH)) ∧
    ((share_context = EGL_NO_CONTEXT ∨
        ((s.contexts share_context).resetNotification = parsedResetNotification es ∧
          (s.contexts share_context).clientVersion = requestedMajorVersion es ∧
          (s.contexts share_context).renderer = getRenderer s dpy)) →
      CreateContext s dpy config share_context (some (attribArray es tail)) backend
        = some (EGL_NO_CONTEXT, SetGlobalError s EGL_BAD_CONFIG)) := by
  have h := CreateContext_valid_attribs s dpy config share_context backend es tail hacc hmajor
    hminor hflags hbit hrobust
  have hd : (dpy == 0) = false := by simpa using hdpy
  have hcreate : ∀ a : ContextAttribs,
      CreateContext.create s dpy config share_context a false backend
        = (EGL_NO_CONTEXT, SetGlobalError s EGL_BAD_CONFIG) := by
    intro a
    have hv : ValidateConfig s dpy config = (false, SetGlobalError s EGL_BAD_CONFIG) := by
      unfold ValidateConfig
      rw [ValidateDisplay_ok s dpy hdpy hinit]
      simp [hcfg]
    unfold CreateContext.create
    simp [hv]
  refine ⟨?_, ?_, ?_, ?_⟩
  · intro hs h1
    have hs' : (share_context != 0) = true := by simpa using hs
    rw [h]
    simp [hs', h1]
  · intro hs h1 h2
    have hs' : (share_context != 0) = true := by simpa using hs
    rw [h]
    simp [hs', h1, h2]
  · intro hs h1 h2 h3
    have hs' : (share_context != 0) = true := by simpa using hs
    rw [h]
    simp [hs', h1, h2, hd, h3]
  · intro hc
    rw [h, hcreate]
    rcases hc with hc | ⟨h1, h2, h3⟩
    · have hs' : (share_context != 0) = false := by simpa using hc
      simp [hs']
    · simp [h1, h2, h3, hd]

/-- Witness for C25: on display `1` of `twoDisplayState` the config `7` is not valid. Sharing
with context `3` while requesting client version 3 fails with `EGL_BAD_CONTEXT`; without a
share context, and with the compatible share context `3`, the call fails with
`EGL_BAD_CONFIG`. -/
theorem C25_CreateContext_share_before_config_witness :
    isValidConfig twoDisplayState 1 7 = false ∧
    ((twoDisplayState.contexts 3).clientVersion ≠
        requestedMajorVersion [(EGL_CONTEXT_CLIENT_VERSION, 3)] ∧
      CreateContext twoDisplayState 1 7 3
          (some (attribArray [(EGL_CONTEXT_CLIENT_VERSION, 3)] [])) ⟨EGL_SUCCESS, 8⟩
        = some (EGL_NO_CONTEXT, SetGlobalError twoDisplayState EGL_BAD_CONTEXT)) ∧
    CreateContext twoDisplayState 1 7 EGL_NO_CONTEXT
        (some (attribArray [(EGL_CONTEXT_CLIENT_VERSION, 2)] [])) ⟨EGL_SUCCESS, 8⟩
      = some (EGL_NO_CONTEXT, SetGlobalError twoDisplayState EGL_BAD_CONFIG) ∧
    CreateContext twoDisplayState 1 7 3
        (some (attribArray [(EGL_CONTEXT_CLIENT_VERSION, 2)] [])) ⟨EGL_SUCCESS, 8⟩
      = some (EGL_NO_CONTEXT, SetGlobalError twoDisplayState EGL_BAD_CONFIG) :=
  ⟨by decide,
    ⟨by decide,
      (C25_CreateContext_share_before_config twoDisplayState 1 7 3 ⟨EGL_SUCCESS, 8⟩
        [(EGL_CONTEXT_CLIENT_VERSION, 3)] [] (by decide) (by decide) (by decide) (by decide)
        (by decide) (by decide) (by decide) (by decide) (by decide)).2.1
        (by decide) (by decide) (by decide)⟩,
    (C25_CreateContext_share_before_config twoDisplayState 1 7 EGL_NO_CONTEXT ⟨EGL_SUCCESS, 8⟩
      [(EGL_CONTEXT_CLIENT_VERSION, 2)] [] (by decide) (by decide) (by decide) (by decide)
      (by decide) (by decide) (by decide) (by decide) (by decide)).2.2.2 (Or.inl rfl),
    (C25_CreateContext_share_before_config twoDisplayState 1 7 3 ⟨EGL_SUCCESS, 8⟩
      [(EGL_CONTEXT_CLIENT_VERSION, 2)] [] (by decide) (by decide) (by decide) (by decide)
      (by decide) (by decide) (by decide) (by decide) (by decide)).2.2.2
      (Or.inr ⟨by decide, by decide, by decide⟩)⟩

/-- C28 (defect in the code): `CreateContext` reads the renderer of the display (line 572)
before the display is validated (line 579). With the null display, the share context `3`
(client version 2, no reset notification) and a list that requests client version 2, the
share-context block reaches `display->getRenderer()` through the null pointer, so the call has
no defined result; it does not return `EGL_NO_CONTEXT` with `EGL_BAD_DISPLAY`. Without a share
context the same call does return `EGL_NO_CONTEXT` with `EGL_BAD_DISPLAY`. -/
theorem C28_CreateContext_null_display_dereferenced :
    (objectState.contexts 3).resetNotification = false ∧
    (objectState.contexts 3).clientVersion = 2 ∧
    CreateContext.attribLoop [EGL_CONTEXT_CLIENT_VERSION, 2, EGL_NONE] initialAttribs
      = .done { initialAttribs with clientMajorVersion := 2 } ∧
    CreateContext objectState EGL_NO_DISPLAY 5 3
        (some [EGL_CONTEXT_CLIENT_VERSION, 2, EGL_NONE]) ⟨EGL_SUCCESS, 8⟩ = none ∧
    CreateContext objectState EGL_NO_DISPLAY 5 EGL_NO_CONTEXT
        (some [EGL_CONTEXT_CLIENT_VERSION, 2, EGL_NONE]) ⟨EGL_SUCCESS, 8⟩
      = some (EGL_NO_CONTEXT, SetGlobalError objectState EGL_BAD_DISPLAY) :=
  ⟨rfl, rfl, rfl, rfl, rfl⟩

/-- The null-ness check of `MakeCurrent` (lines 634-636) fires exactly when the null-ness of
the context differs from "one of the surfaces is null". -/
theorem nullness_mismatch_iff (draw read ctx : Handle) :
    ((ctx == EGL_NO_CONTEXT) != (draw == EGL_NO_SURFACE || read == EGL_NO_SURFACE)) = true ↔
      ¬(ctx = EGL_NO_CONTEXT ↔ (draw = EGL_NO_SURFACE ∨ read = EGL_NO_SURFACE)) := by
  rw [bne_iff_ne, Ne, Bool.eq_iff_iff]
  simp only [beq_iff_eq, Bool.or_eq_true]

/-- The errors of a failed `ValidateContext`. -/
theorem ValidateContext_error (s : State) (dpy ctx : Handle)
    (h : (ValidateContext s dpy ctx).1 = false) :
    (ValidateContext s dpy ctx).2.error = EGL_BAD_DISPLAY ∨
    (ValidateContext s dpy ctx).2.error = EGL_NOT_INITIALIZED ∨
    (ValidateContext s dpy ctx).2.error = EGL_BAD_CONTEXT := by
  unfold ValidateContext ValidateDisplay at h ⊢
  split_ifs at h ⊢ <;> simp_all [SetGlobalError]

/-- C26: `MakeCurrent` reports the error of the earliest failing step, in the order null-ness
check, context validation, device-loss check, draw-surface validation, read-surface
validation. A null-ness mismatch gives `EGL_BAD_MATCH` for every display handle; otherwise a
supplied context that fails validation gives the result of `ValidateContext`
(`EGL_BAD_DISPLAY`, `EGL_NOT_INITIALIZED` or `EGL_BAD_CONTEXT`) whatever the renderer and the
surfaces are; otherwise a device-loss block that returns decides the result whatever the
surfaces are; otherwise a draw surface that fails validation gives the result of its
validation whatever the read surface is; otherwise a read surface that fails validation gives
the result of its validation. On a valid display the error of a surface that is not valid is
`EGL_BAD_SURFACE`. -/
theorem C26_MakeCurrent_check_order (s : State) (dpy draw read ctx : Handle) :
    (¬(ctx = EGL_NO_CONTEXT ↔ (draw = EGL_NO_SURFACE ∨ read = EGL_NO_SURFACE)) →
      MakeCurrent s dpy draw read ctx = (EGL_FALSE, SetGlobalError s EGL_BAD_MATCH)) ∧
    ((ctx = EGL_NO_CONTEXT ↔ (draw = EGL_NO_SURFACE ∨ read = EGL_NO_SURFACE)) →
      ctx ≠ EGL_NO_CONTEXT → (ValidateContext s dpy ctx).1 = false →
      MakeCurrent s dpy draw read ctx = (EGL_FALSE, (ValidateContext s dpy ctx).2) ∧
      ((ValidateContext s dpy ctx).2.error = EGL_BAD_DISPLAY ∨
        (ValidateContext s dpy ctx).2.error = EGL_NOT_INITIALIZED ∨
        (ValidateContext s dpy ctx).2.error = EGL_BAD_CONTEXT)) ∧
    ((ctx = EGL_NO_CONTEXT ↔ (draw = EGL_NO_SURFACE ∨ read = EGL_NO_SURFACE)) →
      (ctx = EGL_NO_CONTEXT ∨ (ValidateContext s dpy ctx).1 = true) →
      ∀ r, MakeCurrent.deviceLossCheck s dpy = some r → MakeCurrent s dpy draw read ctx = r) ∧
    ((ctx = EGL_NO_CONTEXT ↔ (draw = EGL_NO_SURFACE ∨ read = EGL_NO_SURFACE)) →
      (ctx = EGL_NO_CONTEXT ∨ (ValidateContext s dpy ctx).1 = true) →
      MakeCurrent.deviceLossCheck s dpy = none →
      draw ≠ EGL_NO_SURFACE → (ValidateSurface s dpy draw).1 = false →
      MakeCurrent s dpy draw read ctx = (EGL_FALSE, (ValidateSurface s dpy draw).2)) ∧
    ((ctx = EGL_NO_CONTEXT ↔ (draw = EGL_NO_SURFACE ∨ read = EGL_NO_SURFACE)) →
      (ctx = EGL_NO_CONTEXT ∨ (ValidateContext s dpy ctx).1 = true) →
      MakeCurrent.deviceLossCheck s dpy = none →
      (draw = EGL_NO_SURFACE ∨ (ValidateSurface s dpy draw).1 = true) →
      read ≠ EGL_NO_SURFACE → (ValidateSurface s dpy read).1 = false →
      MakeCurrent s dpy draw read ctx = (EGL_FALSE, (ValidateSurface s dpy read).2)) ∧
    (∀ x, (ValidateDisplay s dpy).1 = true → isValidSurface s dpy x = false →
      (ValidateSurface s dpy x).2.error = EGL_BAD_SURFACE) := by
  have hmis := nullness_mismatch_iff draw read ctx
  have hctxok : (ctx = EGL_NO_CONTEXT ∨ (ValidateContext s dpy ctx).1 = true) →
      ¬((ctx != EGL_NO_CONTEXT && !(ValidateContext s dpy ctx).1) = true) := by
    intro h
    rcases h with h | h <;> simp [h]
  refine ⟨?_, ?_, ?_, ?_, ?_, ?_⟩
  · intro h
    unfold MakeCurrent
    simp only []
    rw [if_pos (hmis.mpr h)]
  · intro hn hc hv
    refine ⟨?_, ValidateContext_error s dpy ctx hv⟩
    have h1 : ¬(((ctx == EGL_NO_CONTEXT)
        != (draw == EGL_NO_SURFACE || read == EGL_NO_SURFACE)) = true) :=
      fun h => (hmis.mp h) hn
    have h2 : (ctx != EGL_NO_CONTEXT && !(ValidateContext s dpy ctx).1) = true := by
      simp [hc, hv]
    unfold MakeCurrent
    simp only []
    rw [if_neg h1, if_pos h2]
  · intro hn hc r hr
    have h1 : ¬(((ctx == EGL_NO_CONTEXT)
        != (draw == EGL_NO_SURFACE || read == EGL_NO_SURFACE)) = true) :=
      fun h => (hmis.mp h) hn
    unfold MakeCurrent
    simp only []
    rw [if_neg h1, if_neg (hctxok hc), hr]
  · intro hn hc hl hd hv
    have h1 : ¬(((ctx == EGL_NO_CONTEXT)
        != (draw == EGL_NO_SURFACE || read == EGL_NO_SURFACE)) = true) :=
      fun h => (hmis.mp h) hn
    have h3 : (draw != EGL_NO_SURFACE && !(ValidateSurface s dpy draw).1) = true := by
      simp [hd, hv]
    unfold MakeCurrent
    simp only []
    rw [if_neg h1, if_neg (hctxok hc), hl]
    simp only []
    rw [if_pos h3]
  · intro hn hc hl hd hr hv
    have h1 : ¬(((ctx == EGL_NO_CONTEXT)
        != (draw == EGL_NO_SURFACE || read == EGL_NO_SURFACE)) = true) :=
      fun h => (hmis.mp h) hn
    have h3 : ¬((draw != EGL_NO_SURFACE && !(ValidateSurface s dpy draw).1) = true) := by
      rcases hd with h | h <;> simp [h]
    have h4 : (read != EGL_NO_SURFACE && !(ValidateSurface s dpy read).1) = true := by
      simp [hr, hv]
    unfold MakeCurrent
    simp only []
    rw [if_neg h1, if_neg (hctxok hc), hl]
    simp only []
    rw [if_neg h3, if_pos h4]
  · intro x hv hx
    have hs := ValidateDisplay_true s dpy hv
    unfold ValidateSurface
    simp [hv, hs, hx, SetGlobalError]

/-- Witness for C26: a null-ness mismatch on the null display; an invalid context on a display
whose device is lost, with invalid surfaces; the device-loss block with invalid surfaces; an
invalid draw surface; an invalid read surface. -/
theorem C26_MakeCurrent_check_order_witness :
    (¬((0 : Handle) = EGL_NO_CONTEXT ↔
        ((2 : Handle) = EGL_NO_SURFACE ∨ (2 : Handle) = EGL_NO_SURFACE)) ∧
      MakeCurrent exampleState EGL_NO_DISPLAY 2 2 0
        = (EGL_FALSE, SetGlobalError exampleState EGL_BAD_MATCH)) ∧
    ((ValidateContext markedLostState 1 9).1 = false ∧
      (ValidateSurface markedLostState 1 8).1 = false ∧
      MakeCurrent markedLostState 1 8 8 9 = (EGL_FALSE, (ValidateContext markedLostState 1 9).2) ∧
      (ValidateContext markedLostState 1 9).2.error = EGL_BAD_CONTEXT) ∧
    ((ValidateContext markedLostState 1 3).1 = true ∧
      MakeCurrent markedLostState 1 8 8 3
        = (EGL_FALSE, SetGlobalError markedLostState EGL_CONTEXT_LOST)) ∧
    ((ValidateSurface exampleState 1 8).1 = false ∧
      MakeCurrent exampleState 1 8 8 3 = (EGL_FALSE, (ValidateSurface exampleState 1 8).2) ∧
      (ValidateSurface exampleState 1 8).2.error = EGL_BAD_SURFACE) ∧
    ((ValidateSurface exampleState 1 2).1 = true ∧
      MakeCurrent exampleState 1 2 8 3 = (EGL_FALSE, (ValidateSurface exampleState 1 8).2)) :=
  ⟨⟨by decide, (C26_MakeCurrent_check_order exampleState EGL_NO_DISPLAY 2 2 0).1 (by decide)⟩,
    ⟨by decide, by decide,
      ((C26_MakeCurrent_check_order markedLostState 1 8 8 9).2.1 (by decide) (by decide)
        (by decide)).1, by decide⟩,
    ⟨by decide,
      (C26_MakeCurrent_check_order markedLostState 1 8 8 3).2.2.1 (by decide)
        (Or.inr (by decide)) _ rfl⟩,
    ⟨by decide,
      (C26_MakeCurrent_check_order exampleState 1 8 8 3).2.2.2.1 (by decide)
        (Or.inr (by decide)) rfl (by decide) (by decide),
      (C26_MakeCurrent_check_order exampleState 1 8 8 3).2.2.2.2.2 8 (by decide) (by decide)⟩,
    ⟨by decide,
      (C26_MakeCurrent_check_order exampleState 1 2 8 3).2.2.2.2.1 (by decide)
        (Or.inr (by decide)) rfl (Or.inr (by decide)) (by decide) (by decide)⟩⟩

/-! ## The claims on `BindTexImage` -/

/-- C27 as stated fails: on the last path the surface is bound only when a context is
current. In `objectState`, which is `Unbound`, surface `2` is a valid offscreen surface with a
texture format and no bound texture; `BindTexImage(1, 2, EGL_BACK_BUFFER)` returns `EGL_TRUE`
with `EGL_SUCCESS`, the bind operation of the surface is not called and the surface still has
no bound texture. -/
theorem C27_counterexample_success_without_binding :
    objectState.context = EGL_NO_CONTEXT ∧
    (BindTexImage objectState 1 2 EGL_BACK_BUFFER).map
        (fun r => (r.1, r.2.error, r.2.trace, (r.2.surfaces 2).boundTexture))
      = some (EGL_TRUE, EGL_SUCCESS, [], 0) := by
  decide

/-- C27 (amended): for a valid non-null surface and `buffer = EGL_BACK_BUFFER`, `BindTexImage`
decides in this order: window-backed surface, `EGL_FALSE` with `EGL_BAD_SURFACE`; surface
already has a bound texture, `EGL_FALSE` with `EGL_BAD_ACCESS`; texture format is no-texture,
`EGL_FALSE` with `EGL_BAD_MATCH`; a context is current and its 2D texture is immutable,
`EGL_FALSE` with `EGL_BAD_MATCH`; otherwise `EGL_TRUE` with `EGL_SUCCESS`, binding the surface
to the 2D texture of the current context when a context is current and binding nothing when
no context is current. The bind operation of the surface is called only on the path that
returns `EGL_TRUE` with a current context, and only with the 2D texture of that context. -/
theorem C27_BindTexImage_decision_order (s : State) (dpy surface : Handle)
    (hdpy : dpy ≠ EGL_NO_DISPLAY) (hinit : isInitialized s dpy = true)
    (hvalid : isValidSurface s dpy surface = true) (hsurf : surface ≠ EGL_NO_SURFACE)
    (htex : s.context ≠ EGL_NO_CONTEXT → (s.contexts s.context).texture2D ≠ 0) :
    BindTexImage s dpy surface EGL_BACK_BUFFER =
      (if (s.surfaces surface).windowHandle ≠ 0 then
        some (EGL_FALSE, SetGlobalError s EGL_BAD_SURFACE)
      else if (s.surfaces surface).boundTexture ≠ 0 then
        some (EGL_FALSE, SetGlobalError s EGL_BAD_ACCESS)
      else if (s.surfaces surface).textureFormat = EGL_NO_TEXTURE then
        some (EGL_FALSE, SetGlobalError s EGL_BAD_MATCH)
      else if s.context ≠ EGL_NO_CONTEXT ∧
          (s.textures (s.contexts s.context).texture2D).immutable = true then
        some (EGL_FALSE, SetGlobalError s EGL_BAD_MATCH)
      else if s.context ≠ EGL_NO_CONTEXT then
        some (EGL_TRUE,
          SetGlobalError
            (surfaceBindTexImage s surface (s.contexts s.context).texture2D EGL_BACK_BUFFER)
            EGL_SUCCESS)
      else
        some (EGL_TRUE, SetGlobalError s EGL_SUCCESS)) ∧
    (∀ r, BindTexImage s dpy surface EGL_BACK_BUFFER = some r →
      r.2.trace = s.trace ∨
      (r.1 = EGL_TRUE ∧ s.context ≠ EGL_NO_CONTEXT ∧
        r.2.trace
          = Event.bindTexImage surface (s.contexts s.context).texture2D EGL_BACK_BUFFER
              :: s.trace)) := by
  have hv := ValidateSurface_ok s dpy surface hdpy hinit hvalid
  have hs0 : (surface == EGL_NO_SURFACE) = false := by simpa using hsurf
  have hb : (EGL_BACK_BUFFER != EGL_BACK_BUFFER) = false := by decide
  have hmain : BindTexImage s dpy surface EGL_BACK_BUFFER =
      (if (s.surfaces surface).windowHandle ≠ 0 then
        some (EGL_FALSE, SetGlobalError s EGL_BAD_SURFACE)
      else if (s.surfaces surface).boundTexture ≠ 0 then
        some (EGL_FALSE, SetGlobalError s EGL_BAD_ACCESS)
      else if (s.surfaces surface).textureFormat = EGL_NO_TEXTURE then
        some (EGL_FALSE, SetGlobalError s EGL_BAD_MATCH)
      else if s.context ≠ EGL_NO_CONTEXT ∧
          (s.textures (s.contexts s.context).texture2D).immutable = true then
        some (EGL_FALSE, SetGlobalError s EGL_BAD_MATCH)
      else if s.context ≠ EGL_NO_CONTEXT then
        some (EGL_TRUE,
          SetGlobalError
            (surfaceBindTexImage s surface (s.contexts s.context).texture2D EGL_BACK_BUFFER)
            EGL_SUCCESS)
      else
        some (EGL_TRUE, SetGlobalError s EGL_SUCCESS)) := by
    unfold BindTexImage
    simp only [hv, hs0, hb, GetGlobalContext]
    by_cases h1 : (s.surfaces surface).windowHandle = 0
    · by_cases h2 : (s.surfaces surface).boundTexture = 0
      · by_cases h3 : (s.surfaces surface).textureFormat = EGL_NO_TEXTURE
        · simp [h1, h2, h3]
        · by_cases h4 : s.context = EGL_NO_CONTEXT
          · have h4' : s.context = 0 := h4
            simp [h1, h2, h3, h4', EGL_NO_CONTEXT]
          · have h4' : ¬ s.context = 0 := h4
            have h5 : ¬ (s.contexts s.context).texture2D = 0 := htex h4
            by_cases h6 : (s.textures (s.contexts s.context).texture2D).immutable = true
            · simp [h1, h2, h3, h4', h5, h6, EGL_NO_CONTEXT]
            · simp [h1, h2, h3, h4', h5, h6, EGL_NO_CONTEXT]
      · simp [h1, h2]
    · simp [h1]
  refine ⟨hmain, ?_⟩
  intro r hr
  rw [hmain] at hr
  split_ifs at hr with h1 h2 h3 h4 h5 <;> simp only [Option.some.injEq] at hr <;> subst hr
  · exact Or.inl rfl
  · exact Or.inl rfl
  · exact Or.inl rfl
  · exact Or.inl rfl
  · exact Or.inr ⟨rfl, h5, rfl⟩
  · exact Or.inl rfl

/-- Witness for C27 (amended): in `boundState`, where context `3` is current, the surface `2`
is bound to the texture `6`. -/
theorem C27_BindTexImage_decision_order_witness :
    (1 : Handle) ≠ EGL_NO_DISPLAY ∧ isInitialized boundState 1 = true ∧
    isValidSurface boundState 1 2 = true ∧ (2 : Handle) ≠ EGL_NO_SURFACE ∧
    (boundState.context ≠ EGL_NO_CONTEXT →
      (boundState.contexts boundState.context).texture2D ≠ 0) ∧
    (BindTexImage boundState 1 2 EGL_BACK_BUFFER).map (fun r => (r.1, r.2.error, r.2.trace))
      = some (EGL_TRUE, EGL_SUCCESS, [Event.bindTexImage 2 6 EGL_BACK_BUFFER]) :=
  have h := C27_BindTexImage_decision_order boundState 1 2 (by decide) (by decide) (by decide)
    (by decide) (by decide)
  ⟨by decide, by decide, by decide, by decide, by decide, by rw [h.1]; decide⟩

end egl
